import Mathlib

/-!
ADS101x driver (`ads101x.c`): register protocol and conversion controller.

A shallow embedding of the driver's C functions.  Machine integers are `Nat`/`Int`
with explicit reductions (`% 256`, `% 65536`, `toInt8`, `toInt16`).  The I2C
transport behind `dev->read` / `dev->write` is an arbitrary function of the
operations issued so far; every function threads the list of operations it has
issued (the trace), so that "which transfers were made, in which order" is a
statement about a list.
-/

namespace Ads101x

/-! ## Machine integers and `esp_err.h` -/

/-- Success code `ESP_OK` of ESP-IDF's `esp_err.h`. -/
def ESP_OK : Int := 0

/-- Generic failure code `ESP_FAIL` of ESP-IDF's `esp_err.h`. -/
def ESP_FAIL : Int := -1

/-- Conversion of an integer to `int8_t` (two's complement wrap), as in `int8_t ret = dev->read(...)`. -/
def toInt8 (x : Int) : Int := (x + 128) % 256 - 128

/-- The cast `(int16_t)result` of a `uint16_t`. -/
def toInt16 (n : Nat) : Int :=
  if n % 65536 < 32768 then ((n % 65536 : Nat) : Int) else ((n % 65536 : Nat) : Int) - 65536

/-! ## Transport and trace -/

/-- One operation the driver performs on its collaborators.
`write reg data` is `dev->write(reg, |reg|, data, |data|, dev)`,
`read reg len` is `dev->read(reg or NULL, |reg|, buf, len, dev)` and
`delay us` is `delay_us(us)`. -/
inductive Op where
  | write (reg : List Nat) (data : List Nat)
  | read (reg : List Nat) (len : Nat)
  | delay (us : Nat)
  deriving DecidableEq, Repr

/-- The transport binding `i2c_bus_dev_t`: its `read` and `write` callbacks.  Each answer may
depend on everything issued before (the history) and on the arguments of the call.  `read`
answers with its status and the two bytes it leaves in the buffer; `write` with its status. -/
structure i2c_bus_dev_t where
  read : List Op → List Nat → Nat → Int × Nat × Nat
  write : List Op → List Nat → List Nat → Int

/-- The device instance `ads101x_t`. -/
structure ads101x_t where
  i2c_dev : i2c_bus_dev_t
  model : Nat
  gain : Nat
  data_rate : Nat
  bit_shift : Nat

/-- The constants of `ads101x.h` that `ads101x.c` uses.  The header is not part of the
sources at hand, so its values are parameters of every function. -/
structure ads101x_h where
  ADS101X_REG_POINTER_CONVERT : Nat
  ADS101X_REG_POINTER_CONFIG : Nat
  ADS101X_REG_POINTER_HITHRESH : Nat
  ADS101X_REG_CONFIG_CQUE_1CONV : Nat
  ADS101X_REG_CONFIG_CLAT_NONLAT : Nat
  ADS101X_REG_CONFIG_CLAT_LATCH : Nat
  ADS101X_REG_CONFIG_CPOL_ACTVLOW : Nat
  ADS101X_REG_CONFIG_CMODE_TRAD : Nat
  ADS101X_REG_CONFIG_MODE_CONTIN : Nat
  ADS101X_REG_CONFIG_OS_SINGLE : Nat
  ADS101X_REG_CONFIG_MUX_DIFF_0_1 : Nat
  ADS101X_REG_CONFIG_MUX_DIFF_0_3 : Nat
  ADS101X_REG_CONFIG_MUX_DIFF_1_3 : Nat
  ADS101X_REG_CONFIG_MUX_DIFF_2_3 : Nat
  ADS101X_MODEL_5 : Nat
  ADS101X_MODE_CONTINUOS : Nat
  ADS101X_MODE_ONESHOT : Nat
  ADS101X_GAIN_TWOTHIRDS : Nat
  ADS101X_GAIN_ONE : Nat
  ADS101X_GAIN_TWO : Nat
  ADS101X_GAIN_FOUR : Nat
  ADS101X_GAIN_EIGHT : Nat
  ADS101X_GAIN_SIXTEEN : Nat

/-- Outcome of a driver call that returns: its return code, the value left in its output
parameter, the instance after the call and the trace after the call. -/
structure Call (α : Type) where
  ret : Int
  out : α
  me : ads101x_t
  trace : List Op

/-- Outcome of a polling read run for a bounded number of loop iterations: `ret` is `none`
while the call is still inside its loop. -/
structure Run where
  ret : Option Int
  adc_result : Int
  me : ads101x_t
  trace : List Op

/-- State of the `do ... while (!conversion_is_complete)` loop after a bounded number of
iterations: whether the loop was left, the flag, and the trace. -/
structure Poll where
  finished : Bool
  conversion_is_complete : Bool
  trace : List Op

/-! ## Private functions: the register codec -/

/-- The C function `i2c_write`: returns `ret` and the trace. -/
def i2c_write (reg_addr reg_data : Nat) (intf : i2c_bus_dev_t) (t : List Op) : Int × List Op :=
  let reg_addr := reg_addr % 256
  let reg_data := reg_data % 65536
  let buf0 := ((reg_data &&& 0xFF00) >>> 8) % 256
  let buf1 := (reg_data &&& 0x00FF) % 256
  let ret := toInt8 (intf.write t [reg_addr] [buf0, buf1])
  let t1 := t ++ [Op.write [reg_addr] [buf0, buf1]]
  if ret < 0 then (ret, t1) else (ret, t1)

/-- The pointer phase of `i2c_read`, `reg_addr ? &reg_addr : NULL` with length
`reg_addr ? 1 : 0`, for the `uint8_t` parameter `reg_addr`: one byte, or nothing for 0. -/
def read_pointer (reg_addr : Nat) : List Nat :=
  let reg_addr := reg_addr % 256
  if reg_addr ≠ 0 then [reg_addr] else []

/-- The C function `i2c_read`: returns `ret`, the content of `*reg_data` and the trace. -/
def i2c_read (reg_addr : Nat) (reg_data : Nat) (intf : i2c_bus_dev_t) (t : List Op) :
    Int × Nat × List Op :=
  let ptr := read_pointer reg_addr
  let ans := intf.read t ptr 2
  let ret := toInt8 ans.1
  let buf0 := ans.2.1 % 256
  let buf1 := ans.2.2 % 256
  let t1 := t ++ [Op.read ptr 2]
  if ret < 0 then (ret, reg_data, t1)
  else (ret, ((buf0 <<< 8) ||| buf1) % 65536, t1)

/-! ## Exported functions -/

/-- The C function `ads101x_start_reading`. -/
def ads101x_start_reading (h : ads101x_h) (me : ads101x_t) (mux mode : Nat) (t : List Op) :
    Call Unit :=
  let mux := mux % 65536
  let config := (h.ADS101X_REG_CONFIG_CQUE_1CONV ||| h.ADS101X_REG_CONFIG_CLAT_NONLAT |||
    h.ADS101X_REG_CONFIG_CPOL_ACTVLOW ||| h.ADS101X_REG_CONFIG_CMODE_TRAD) % 65536
  let config :=
    if mode = h.ADS101X_MODE_CONTINUOS then (config ||| h.ADS101X_REG_CONFIG_MODE_CONTIN) % 65536
    else (config ||| h.ADS101X_REG_CONFIG_MODE_CONTIN) % 65536
  let config := (config ||| me.gain) % 65536
  let config := (config ||| me.data_rate) % 65536
  let config := (config ||| mux) % 65536
  let config := (config ||| h.ADS101X_REG_CONFIG_OS_SINGLE) % 65536
  let w1 := i2c_write h.ADS101X_REG_POINTER_CONFIG config me.i2c_dev t
  if w1.1 < 0 then ⟨ESP_FAIL, (), me, w1.2⟩
  else
    let w2 := i2c_write h.ADS101X_REG_POINTER_HITHRESH 0x8000 me.i2c_dev w1.2
    if w2.1 < 0 then ⟨ESP_FAIL, (), me, w2.2⟩
    else
      let w3 := i2c_write h.ADS101X_REG_POINTER_HITHRESH 0x0000 me.i2c_dev w2.2
      if w3.1 < 0 then ⟨ESP_FAIL, (), me, w3.2⟩
      else ⟨ESP_OK, (), me, w3.2⟩

/-- The C function `ads101x_conversion_complete`; `is_complete` is the content of the output
parameter before the call. -/
def ads101x_conversion_complete (h : ads101x_h) (me : ads101x_t) (is_complete : Bool)
    (t : List Op) : Call Bool :=
  let rx_data := 0
  let r := i2c_read (h.ADS101X_REG_POINTER_CONFIG &&& 0x8000) rx_data me.i2c_dev t
  if r.1 < 0 then ⟨ESP_FAIL, is_complete, me, r.2.2⟩
  else ⟨ESP_OK, decide (r.2.1 ≠ 0), me, r.2.2⟩

/-- The C function `ads101x_get_last_conversion_results`; `adc_result` is the content of the
output parameter before the call. -/
def ads101x_get_last_conversion_results (h : ads101x_h) (me : ads101x_t) (adc_result : Int)
    (t : List Op) : Call Int :=
  let r := i2c_read h.ADS101X_REG_POINTER_CONVERT 0 me.i2c_dev t
  if r.1 < 0 then ⟨ESP_FAIL, adc_result, me, r.2.2⟩
  else
    let result := (r.2.1 >>> me.bit_shift) % 65536
    if me.bit_shift = 0 then ⟨ESP_OK, toInt16 result, me, r.2.2⟩
    else
      let result := if result > 0x07FF then (result ||| 0xF000) % 65536 else result
      ⟨ESP_OK, toInt16 result, me, r.2.2⟩

/-- The loop `do { delay_us(5 * 1000); ads101x_conversion_complete(me, &flag); } while (!flag);`
shared verbatim by the five read functions, run for at most `fuel` iterations.  The return
code of `ads101x_conversion_complete` is discarded, as in the source. -/
def poll_loop (h : ads101x_h) (me : ads101x_t) : Nat → Bool → List Op → Poll
  | 0, flag, t => ⟨false, flag, t⟩
  | fuel + 1, flag, t =>
    let t1 := t ++ [Op.delay (5 * 1000)]
    let c := ads101x_conversion_complete h me flag t1
    if !c.out then poll_loop h me fuel c.out c.trace
    else ⟨true, c.out, c.trace⟩

/-- The C function `ads101x_read_single_ended`, its loop run for at most `fuel` iterations;
`adc_result` is the content of the output parameter before the call. -/
def ads101x_read_single_ended (h : ads101x_h) (me : ads101x_t) (channel : Nat)
    (adc_result : Int) (fuel : Nat) (t : List Op) : Run :=
  let rejected :=
    if me.model = h.ADS101X_MODEL_5 then decide (channel > 3) else decide (channel > 1)
  if rejected then ⟨some ESP_FAIL, adc_result, me, t⟩
  else
    let s := ads101x_start_reading h me channel h.ADS101X_MODE_ONESHOT t
    if s.ret ≠ ESP_OK then ⟨some ESP_FAIL, adc_result, me, s.trace⟩
    else
      let p := poll_loop h me fuel false s.trace
      if !p.finished then ⟨none, adc_result, me, p.trace⟩
      else
        let g := ads101x_get_last_conversion_results h me adc_result p.trace
        if g.ret ≠ ESP_OK then ⟨some ESP_FAIL, g.out, me, g.trace⟩
        else ⟨some g.ret, g.out, me, g.trace⟩

/-- The C function `ads101x_read_differential_0_1`, its loop run for at most `fuel`
iterations. -/
def ads101x_read_differential_0_1 (h : ads101x_h) (me : ads101x_t)
    (adc_result : Int) (fuel : Nat) (t : List Op) : Run :=
  let s := ads101x_start_reading h me h.ADS101X_REG_CONFIG_MUX_DIFF_0_1 h.ADS101X_MODE_ONESHOT t
  if s.ret ≠ ESP_OK then ⟨some ESP_FAIL, adc_result, me, s.trace⟩
  else
    let p := poll_loop h me fuel false s.trace
    if !p.finished then ⟨none, adc_result, me, p.trace⟩
    else
      let g := ads101x_get_last_conversion_results h me adc_result p.trace
      if g.ret ≠ ESP_OK then ⟨some ESP_FAIL, g.out, me, g.trace⟩
      else ⟨some g.ret, g.out, me, g.trace⟩

/-- The C function `ads101x_read_differential_0_3`, its loop run for at most `fuel`
iterations. -/
def ads101x_read_differential_0_3 (h : ads101x_h) (me : ads101x_t)
    (adc_result : Int) (fuel : Nat) (t : List Op) : Run :=
  let s := ads101x_start_reading h me h.ADS101X_REG_CONFIG_MUX_DIFF_0_3 h.ADS101X_MODE_ONESHOT t
  if s.ret ≠ ESP_OK then ⟨some ESP_FAIL, adc_result, me, s.trace⟩
  else
    let p := poll_loop h me fuel false s.trace
    if !p.finished then ⟨none, adc_result, me, p.trace⟩
    else
      let g := ads101x_get_last_conversion_results h me adc_result p.trace
      if g.ret ≠ ESP_OK then ⟨some ESP_FAIL, g.out, me, g.trace⟩
      else ⟨some g.ret, g.out, me, g.trace⟩

/-- The C function `ads101x_read_differential_1_3`, its loop run for at most `fuel`
iterations. -/
def ads101x_read_differential_1_3 (h : ads101x_h) (me : ads101x_t)
    (adc_result : Int) (fuel : Nat) (t : List Op) : Run :=
  let s := ads101x_start_reading h me h.ADS101X_REG_CONFIG_MUX_DIFF_1_3 h.ADS101X_MODE_ONESHOT t
  if s.ret ≠ ESP_OK then ⟨some ESP_FAIL, adc_result, me, s.trace⟩
  else
    let p := poll_loop h me fuel false s.trace
    if !p.finished then ⟨none, adc_result, me, p.trace⟩
    else
      let g := ads101x_get_last_conversion_results h me adc_result p.trace
      if g.ret ≠ ESP_OK then ⟨some ESP_FAIL, g.out, me, g.trace⟩
      else ⟨some g.ret, g.out, me, g.trace⟩

/-- The C function `ads101x_read_differential_2_3`, its loop run for at most `fuel`
iterations. -/
def ads101x_read_differential_2_3 (h : ads101x_h) (me : ads101x_t)
    (adc_result : Int) (fuel : Nat) (t : List Op) : Run :=
  let s := ads101x_start_reading h me h.ADS101X_REG_CONFIG_MUX_DIFF_2_3 h.ADS101X_MODE_ONESHOT t
  if s.ret ≠ ESP_OK then ⟨some ESP_FAIL, adc_result, me, s.trace⟩
  else
    let p := poll_loop h me fuel false s.trace
    if !p.finished then ⟨none, adc_result, me, p.trace⟩
    else
      let g := ads101x_get_last_conversion_results h me adc_result p.trace
      if g.ret ≠ ESP_OK then ⟨some ESP_FAIL, g.out, me, g.trace⟩
      else ⟨some g.ret, g.out, me, g.trace⟩

/-- The C function `ads101x_start_comparator_single_ended`.  The threshold is an `int16_t`;
the shifted value is converted to the `uint16_t` parameter of `i2c_write`. -/
def ads101x_start_comparator_single_ended (h : ads101x_h) (me : ads101x_t) (channel : Nat)
    (threshold : Int) (t : List Op) : Call Unit :=
  let config := (h.ADS101X_REG_CONFIG_CQUE_1CONV ||| h.ADS101X_REG_CONFIG_CLAT_LATCH |||
    h.ADS101X_REG_CONFIG_CPOL_ACTVLOW ||| h.ADS101X_REG_CONFIG_CMODE_TRAD |||
    h.ADS101X_REG_CONFIG_MODE_CONTIN) % 65536
  let config := (config ||| me.gain) % 65536
  let config := (config ||| me.data_rate) % 65536
  let config := (config ||| channel) % 65536
  let w1 := i2c_write h.ADS101X_REG_POINTER_HITHRESH
    ((threshold * 2 ^ me.bit_shift) % 65536).toNat me.i2c_dev t
  if w1.1 < 0 then ⟨ESP_FAIL, (), me, w1.2⟩
  else
    let w2 := i2c_write h.ADS101X_REG_POINTER_CONFIG config me.i2c_dev w1.2
    if w2.1 < 0 then ⟨ESP_FAIL, (), me, w2.2⟩
    else ⟨ESP_OK, (), me, w2.2⟩

/-- The C function `ads101x_set_gain`. -/
def ads101x_set_gain (me : ads101x_t) (gain : Nat) : ads101x_t :=
  { me with gain := gain }

/-- The C function `ads101x_get_gain`. -/
def ads101x_get_gain (me : ads101x_t) : Nat := me.gain

/-- The C function `ads101x_set_data_rate`. -/
def ads101x_set_data_rate (me : ads101x_t) (data_rate : Nat) : ads101x_t :=
  { me with data_rate := data_rate }

/-- The C function `ads101x_get_data_rate`. -/
def ads101x_get_data_rate (me : ads101x_t) : Nat := me.data_rate

/-! ## Concrete values used to evaluate the functions -/

/-- Header values following the ADS1015 datasheet register map (pointer registers 0..3 and
the config bit fields); the enumerators of model and mode are numbered 0, 1, 2. -/
def datasheet_h : ads101x_h where
  ADS101X_REG_POINTER_CONVERT := 0x00
  ADS101X_REG_POINTER_CONFIG := 0x01
  ADS101X_REG_POINTER_HITHRESH := 0x03
  ADS101X_REG_CONFIG_CQUE_1CONV := 0x0000
  ADS101X_REG_CONFIG_CLAT_NONLAT := 0x0000
  ADS101X_REG_CONFIG_CLAT_LATCH := 0x0004
  ADS101X_REG_CONFIG_CPOL_ACTVLOW := 0x0000
  ADS101X_REG_CONFIG_CMODE_TRAD := 0x0000
  ADS101X_REG_CONFIG_MODE_CONTIN := 0x0000
  ADS101X_REG_CONFIG_OS_SINGLE := 0x8000
  ADS101X_REG_CONFIG_MUX_DIFF_0_1 := 0x0000
  ADS101X_REG_CONFIG_MUX_DIFF_0_3 := 0x1000
  ADS101X_REG_CONFIG_MUX_DIFF_1_3 := 0x2000
  ADS101X_REG_CONFIG_MUX_DIFF_2_3 := 0x3000
  ADS101X_MODEL_5 := 2
  ADS101X_MODE_CONTINUOS := 0
  ADS101X_MODE_ONESHOT := 1
  ADS101X_GAIN_TWOTHIRDS := 0x0000
  ADS101X_GAIN_ONE := 0x0200
  ADS101X_GAIN_TWO := 0x0400
  ADS101X_GAIN_FOUR := 0x0600
  ADS101X_GAIN_EIGHT := 0x0800
  ADS101X_GAIN_SIXTEEN := 0x0A00

/-- A transport whose every transfer succeeds (status 0) and whose reads deliver the two
bytes `b0`, `b1`. -/
def const_dev (b0 b1 : Nat) : i2c_bus_dev_t where
  read := fun _ _ _ => (0, b0, b1)
  write := fun _ _ _ => 0

/-- A transport whose writes answer `ws` and whose reads answer `rs` with bytes `b0`, `b1`. -/
def status_dev (ws rs : Int) (b0 b1 : Nat) : i2c_bus_dev_t where
  read := fun _ _ _ => (rs, b0, b1)
  write := fun _ _ _ => ws

/-- Number of writes in a history. -/
def count_writes (t : List Op) : Nat :=
  (t.filter (fun o => match o with | Op.write _ _ => true | _ => false)).length

/-- Number of reads in a history. -/
def count_reads (t : List Op) : Nat :=
  (t.filter (fun o => match o with | Op.read _ _ => true | _ => false)).length

/-- A scripted transport: its k-th write answers the k-th status of `ws` (0 once the list is
used up) and its k-th read answers the k-th entry of `rs` (status 0 with bytes 0, 0 once
the list is used up). -/
def script_dev (ws : List Int) (rs : List (Int × Nat × Nat)) : i2c_bus_dev_t where
  read := fun hist _ _ => rs.getD (count_reads hist) (0, 0, 0)
  write := fun hist _ _ => ws.getD (count_writes hist) 0

/-- An ADS1015-like instance (four channels, 12-bit results) on the given transport. -/
def sample_me (dev : i2c_bus_dev_t) (bit_shift : Nat) : ads101x_t where
  i2c_dev := dev
  model := 2
  gain := 0x0200
  data_rate := 0x0080
  bit_shift := bit_shift

/-! ## Vocabulary of the statements -/

/-- The transfer that puts the 16-bit value `v` into register `a`: pointer byte `a`, then the
most significant byte of `v`, then the least significant one. -/
def reg_write (a v : Nat) : Op :=
  Op.write [a % 256] [v % 65536 / 256, v % 256]

/-- The status, as an `int8_t`, with which the transport `dev` answers the transfer `op`
issued after the history `t` (a delay is not a transfer and has status 0). -/
def answer (dev : i2c_bus_dev_t) (t : List Op) : Op → Int
  | Op.write reg data => toInt8 (dev.write t reg data)
  | Op.read reg len => toInt8 (dev.read t reg len).1
  | Op.delay _ => 0

/-- The config word of `ads101x_start_reading` as the specification describes it: the
bitwise OR of the fixed fields, the gain field, the data-rate field, the mux selector and
the single-shot start bit. -/
def start_reading_word (h : ads101x_h) (me : ads101x_t) (mux : Nat) : Nat :=
  h.ADS101X_REG_CONFIG_CQUE_1CONV ||| h.ADS101X_REG_CONFIG_CLAT_NONLAT |||
    h.ADS101X_REG_CONFIG_CPOL_ACTVLOW ||| h.ADS101X_REG_CONFIG_CMODE_TRAD |||
    h.ADS101X_REG_CONFIG_MODE_CONTIN ||| me.gain ||| me.data_rate ||| mux |||
    h.ADS101X_REG_CONFIG_OS_SINGLE

/-- Whether `ads101x_read_single_ended` accepts the channel: at most 3 on the four-channel
model `ADS101X_MODEL_5`, at most 1 on every other model. -/
def channel_ok (h : ads101x_h) (me : ads101x_t) (channel : Nat) : Prop :=
  (me.model = h.ADS101X_MODEL_5 ∧ channel ≤ 3) ∨ (me.model ≠ h.ADS101X_MODEL_5 ∧ channel ≤ 1)

instance (h : ads101x_h) (me : ads101x_t) (channel : Nat) : Decidable (channel_ok h me channel) := by
  unfold channel_ok; infer_instance

/-! ## Scaling -/

/-- The `float` operations that `ads101x_compute_volts` uses, left uninterpreted: the value
of a decimal literal (`lit 6144 3` is `6.144f`), the conversion of an `int`, division and
multiplication. -/
structure float_ops (F : Type) where
  lit : Nat → Nat → F
  ofInt : Int → F
  div : F → F → F
  mul : F → F → F

/-- The C function `ads101x_compute_volts`, over uninterpreted `float` operations; the
result comes with the instance after the call. -/
def ads101x_compute_volts {F : Type} (ops : float_ops F) (h : ads101x_h) (me : ads101x_t)
    (counts : Int) : F × ads101x_t :=
  let fs_range :=
    if me.gain = h.ADS101X_GAIN_TWOTHIRDS then ops.lit 6144 3
    else if me.gain = h.ADS101X_GAIN_ONE then ops.lit 4096 3
    else if me.gain = h.ADS101X_GAIN_TWO then ops.lit 2048 3
    else if me.gain = h.ADS101X_GAIN_FOUR then ops.lit 1024 3
    else if me.gain = h.ADS101X_GAIN_EIGHT then ops.lit 512 3
    else if me.gain = h.ADS101X_GAIN_SIXTEEN then ops.lit 256 3
    else ops.lit 0 1
  (ops.mul (ops.ofInt counts) (ops.div fs_range (ops.ofInt ((32768 >>> me.bit_shift : Nat) : Int))),
    me)

/-! ## Vocabulary of the later statements -/

/-- The config word of `ads101x_start_comparator_single_ended` as the specification
describes it: the bitwise OR of the comparator fields (assert on first match, latching,
active-low, traditional, continuous-conversion mode) with gain, data rate and channel. -/
def comparator_word (h : ads101x_h) (me : ads101x_t) (channel : Nat) : Nat :=
  h.ADS101X_REG_CONFIG_CQUE_1CONV ||| h.ADS101X_REG_CONFIG_CLAT_LATCH |||
    h.ADS101X_REG_CONFIG_CPOL_ACTVLOW ||| h.ADS101X_REG_CONFIG_CMODE_TRAD |||
    h.ADS101X_REG_CONFIG_MODE_CONTIN ||| me.gain ||| me.data_rate ||| channel

/-- The value `threshold << bit_shift` truncated to 16 bits. -/
def threshold_word (bit_shift : Nat) (threshold : Int) : Nat :=
  ((threshold * 2 ^ bit_shift) % 65536).toNat

/-- The three register writes of a successful `ads101x_start_reading`. -/
def start_writes (h : ads101x_h) (me : ads101x_t) (mux : Nat) : List Op :=
  [reg_write h.ADS101X_REG_POINTER_CONFIG (start_reading_word h me mux),
    reg_write h.ADS101X_REG_POINTER_HITHRESH 0x8000,
    reg_write h.ADS101X_REG_POINTER_HITHRESH 0x0000]

/-- The trace of `k` rounds of the polling loop: a 5 ms delay, then the probe. -/
def probes : Nat → List Op
  | 0 => []
  | k + 1 => Op.delay (5 * 1000) :: Op.read [] 2 :: probes k

/-- What a completion probe issued after the history `hist` reports: complete when the read
is not refused and the two bytes are not both zero. -/
def probe_reports_complete (dev : i2c_bus_dev_t) (hist : List Op) : Bool :=
  decide (0 ≤ answer dev hist (Op.read [] 2)) &&
    decide (256 * ((dev.read hist [] 2).2.1 % 256) + (dev.read hist [] 2).2.2 % 256 ≠ 0)

/-- The single-ended read after its channel check, as the specification describes it, with
the mux selector as a parameter: `start_reading` in oneshot mode, the polling loop, then
`get_last_conversion_results`. -/
def oneshot_read (h : ads101x_h) (me : ads101x_t) (mux : Nat) (adc_result : Int)
    (fuel : Nat) (t : List Op) : Run :=
  let s := ads101x_start_reading h me mux h.ADS101X_MODE_ONESHOT t
  if s.ret ≠ ESP_OK then ⟨some ESP_FAIL, adc_result, me, s.trace⟩
  else
    let p := poll_loop h me fuel false s.trace
    if !p.finished then ⟨none, adc_result, me, p.trace⟩
    else
      let g := ads101x_get_last_conversion_results h me adc_result p.trace
      if g.ret ≠ ESP_OK then ⟨some ESP_FAIL, g.out, me, g.trace⟩
      else ⟨some g.ret, g.out, me, g.trace⟩

/-- A transport that never refuses a write, whose first `n` reads give 0x0000, whose next
read gives 0x8000 and whose read after that gives the bytes `b0`, `b1`. -/
def ready_after_dev (n b0 b1 : Nat) : i2c_bus_dev_t where
  read := fun hist _ _ =>
    if count_reads hist < n then (0, 0, 0)
    else if count_reads hist = n then (0, 0x80, 0)
    else (0, b0, b1)
  write := fun _ _ _ => 0

/-! ## Arithmetic of the codec -/

theorem shiftRight_land (a b i : Nat) : (a &&& b) >>> i = a >>> i &&& b >>> i := by
  apply Nat.eq_of_testBit_eq
  intro j
  simp only [Nat.testBit_shiftRight, Nat.testBit_and]

theorem hi_byte (v : Nat) : ((v % 65536 &&& 0xFF00) >>> 8) % 256 = v % 65536 / 256 := by
  rw [shiftRight_land]
  have e : (0xFF00 >>> 8 : Nat) = 2 ^ 8 - 1 := by decide
  rw [e, Nat.and_pow_two_sub_one_eq_mod, Nat.shiftRight_eq_div_pow]
  omega

theorem lo_byte (v : Nat) : (v % 65536 &&& 0x00FF) % 256 = v % 256 := by
  have e : (0x00FF : Nat) = 2 ^ 8 - 1 := by decide
  rw [e, Nat.and_pow_two_sub_one_eq_mod]
  omega

theorem bytes_lor (b0 b1 : Nat) (h1 : b1 < 256) : (b0 <<< 8 ||| b1) = 256 * b0 + b1 := by
  rw [Nat.shiftLeft_eq, Nat.mul_comm]
  exact (Nat.mul_add_lt_is_or (by simpa using h1) b0).symm

theorem lor_sign_bits (x : Nat) (h : x < 4096) : x ||| 0xF000 = x + 0xF000 := by
  have e := Nat.mul_add_lt_is_or (i := 12) (b := x) (by simpa using h) 15
  rw [Nat.lor_comm]
  simpa [Nat.add_comm] using e.symm

theorem mod_lor_mod (a b : Nat) : (a % 65536 ||| b) % 65536 = (a ||| b) % 65536 := by
  apply Nat.eq_of_testBit_eq
  intro i
  have e : (65536 : Nat) = 2 ^ 16 := by norm_num
  simp only [e, Nat.testBit_mod_two_pow, Nat.testBit_or]
  by_cases hi : i < 16 <;> simp [hi]

/-- What `i2c_write` does: one transfer `reg_write`, and the status of that transfer. -/
theorem i2c_write_eq (a v : Nat) (dev : i2c_bus_dev_t) (t : List Op) :
    i2c_write a v dev t = (answer dev t (reg_write a v), t ++ [reg_write a v]) := by
  simp only [i2c_write, reg_write, answer, hi_byte, lo_byte, ite_self]

/-- What `i2c_read` does: one two-byte read, decoded big-endian unless the status is negative. -/
theorem i2c_read_eq (a old : Nat) (dev : i2c_bus_dev_t) (t : List Op) :
    i2c_read a old dev t =
      (answer dev t (Op.read (read_pointer a) 2),
        if answer dev t (Op.read (read_pointer a) 2) < 0 then old
        else 256 * ((dev.read t (read_pointer a) 2).2.1 % 256)
          + (dev.read t (read_pointer a) 2).2.2 % 256,
        t ++ [Op.read (read_pointer a) 2]) := by
  have hb : ∀ b0 b1 : Nat, ((b0 % 256) <<< 8 ||| b1 % 256) % 65536
      = 256 * (b0 % 256) + b1 % 256 := by
    intro b0 b1
    rw [bytes_lor _ _ (Nat.mod_lt _ (by norm_num))]
    omega
  simp only [i2c_read, answer, hb]
  split <;> rfl

/-! ## Result decoding -/

/-- What `ads101x_get_last_conversion_results` does when the read of the conversion register
is not refused: the register value `r` is shifted, sign-extended and cast. -/
theorem get_last_of_read (h : ads101x_h) (me : ads101x_t) (adc : Int) (t : List Op)
    (s : Int) (b0 b1 : Nat) (hs : 0 ≤ toInt8 s)
    (hread : me.i2c_dev.read t (read_pointer h.ADS101X_REG_POINTER_CONVERT) 2 = (s, b0, b1)) :
    ads101x_get_last_conversion_results h me adc t =
      ⟨ESP_OK,
        (if me.bit_shift = 0 then
          toInt16 (((256 * (b0 % 256) + b1 % 256) >>> me.bit_shift) % 65536)
        else toInt16
          (if ((256 * (b0 % 256) + b1 % 256) >>> me.bit_shift) % 65536 > 0x07FF then
            ((((256 * (b0 % 256) + b1 % 256) >>> me.bit_shift) % 65536) ||| 0xF000) % 65536
          else ((256 * (b0 % 256) + b1 % 256) >>> me.bit_shift) % 65536)),
        me, t ++ [Op.read (read_pointer h.ADS101X_REG_POINTER_CONVERT) 2]⟩ := by
  have hn : ¬ toInt8 s < 0 := not_lt.mpr hs
  simp only [ads101x_get_last_conversion_results, i2c_read_eq, answer, hread, hn, if_false]
  split <;> rfl

/-- C1: for every 16-bit conversion-register value `r` and `bit_shift` 0 or 4, when the
transport read is not refused (status 0, or any status that is not negative as an `int8_t`),
`ads101x_get_last_conversion_results` returns `ESP_OK` and stores the floor of
`int16(r) / 2 ^ bit_shift`; for `bit_shift = 4` this is the signed 12-bit value held in the
top 12 bits of `r`, between -2048 and 2047. -/
theorem get_last_conversion_results_arith_shift (h : ads101x_h) (me : ads101x_t) (adc : Int)
    (t : List Op) (r : Nat) (s : Int) (hr : r < 65536)
    (hbs : me.bit_shift = 0 ∨ me.bit_shift = 4) (hs : 0 ≤ toInt8 s)
    (hread : me.i2c_dev.read t (read_pointer h.ADS101X_REG_POINTER_CONVERT) 2
      = (s, r / 256, r % 256)) :
    (ads101x_get_last_conversion_results h me adc t).ret = ESP_OK ∧
    (ads101x_get_last_conversion_results h me adc t).out
      = Int.fdiv (toInt16 r) (2 ^ me.bit_shift) ∧
    (me.bit_shift = 4 →
      (ads101x_get_last_conversion_results h me adc t).out
        = (if r / 16 < 2048 then ((r / 16 : Nat) : Int) else ((r / 16 : Nat) : Int) - 4096) ∧
      -2048 ≤ (ads101x_get_last_conversion_results h me adc t).out ∧
      (ads101x_get_last_conversion_results h me adc t).out ≤ 2047) := by
  rw [get_last_of_read h me adc t s _ _ hs hread]
  have hv : 256 * (r / 256 % 256) + r % 256 % 256 = r := by omega
  simp only [hv]
  rcases hbs with h0 | h4
  · simp only [h0, if_true, Nat.shiftRight_zero, pow_zero, true_and]
    refine ⟨?_, by intro hc; omega⟩
    rw [Int.fdiv_eq_ediv _ (by norm_num)]
    simp only [toInt16]
    split <;> omega
  · have e4 : (r >>> 4) = r / 16 := by rw [Nat.shiftRight_eq_div_pow]
    have hlt : r / 16 < 4096 := by omega
    simp only [h4, e4, if_false, true_and, OfNat.ofNat_ne_zero]
    have key : toInt16 (if r / 16 % 65536 > 0x07FF then (r / 16 % 65536 + 0xF000) % 65536
        else r / 16 % 65536)
        = (if r / 16 < 2048 then ((r / 16 : Nat) : Int) else ((r / 16 : Nat) : Int) - 4096) := by
      simp only [toInt16]
      split <;> split <;> split <;> omega
    have hm : r / 16 % 65536 = r / 16 := by omega
    simp only [hm] at key ⊢
    rw [lor_sign_bits _ hlt, key]
    refine ⟨?_, fun _ => ⟨rfl, ?_, ?_⟩⟩
    · rw [Int.fdiv_eq_ediv _ (by norm_num)]
      simp only [toInt16]
      split <;> split <;> omega
    · split <;> omega
    · split <;> omega

/-- C1, concrete instance: the register value 0xFFFF with `bit_shift = 4` is stored as -1. -/
theorem get_last_conversion_results_arith_shift_witness :
    (ads101x_get_last_conversion_results datasheet_h (sample_me (const_dev 0xFF 0xFF) 4) 0 []).ret
      = ESP_OK ∧
    (ads101x_get_last_conversion_results datasheet_h (sample_me (const_dev 0xFF 0xFF) 4) 0 []).out
      = -1 :=
  have w := get_last_conversion_results_arith_shift datasheet_h
    (sample_me (const_dev 0xFF 0xFF) 4) 0 [] 0xFFFF 0 (by decide) (Or.inr rfl) (by decide) rfl
  ⟨w.1, w.2.1.trans (by decide)⟩

/-- C2 as stated fails: with the conversion register holding 0x07FF and `bit_shift = 4` the
stored result is 0x007F = 127, not 2047. -/
theorem register_07FF_shift_4_is_127 :
    (ads101x_get_last_conversion_results datasheet_h (sample_me (const_dev 0x07 0xFF) 4) 0 []).ret
      = ESP_OK ∧
    (ads101x_get_last_conversion_results datasheet_h (sample_me (const_dev 0x07 0xFF) 4) 0 []).out
      = 127 ∧
    (ads101x_get_last_conversion_results datasheet_h (sample_me (const_dev 0x07 0xFF) 4) 0 []).out
      ≠ 2047 := by
  rw [get_last_of_read datasheet_h (sample_me (const_dev 0x07 0xFF) 4) 0 [] 0 0x07 0xFF
    (by decide) rfl]
  decide

/-- C2, amended: when the conversion register holds 0x7FF0 (bytes 0x7F, 0xF0) and `bit_shift`
is 4, the shifted value is 0x07FF, it is not sign-extended, and the stored result is +2047. -/
theorem register_7FF0_shift_4_is_2047 (h : ads101x_h) (me : ads101x_t) (adc : Int)
    (t : List Op) (s : Int) (hbs : me.bit_shift = 4) (hs : 0 ≤ toInt8 s)
    (hread : me.i2c_dev.read t (read_pointer h.ADS101X_REG_POINTER_CONVERT) 2
      = (s, 0x7F, 0xF0)) :
    (ads101x_get_last_conversion_results h me adc t).ret = ESP_OK ∧
    (ads101x_get_last_conversion_results h me adc t).out = toInt16 0x07FF ∧
    (ads101x_get_last_conversion_results h me adc t).out = 2047 := by
  rw [get_last_of_read h me adc t s _ _ hs hread]
  simp only [hbs]
  decide

/-- C2, amended, concrete instance: bytes 0x7F, 0xF0 on a four-channel instance. -/
theorem register_7FF0_shift_4_is_2047_witness :
    (ads101x_get_last_conversion_results datasheet_h (sample_me (const_dev 0x7F 0xF0) 4) 0 []).out
      = 2047 :=
  (register_7FF0_shift_4_is_2047 datasheet_h (sample_me (const_dev 0x7F 0xF0) 4) 0 [] 0 rfl
    (by decide) rfl).2.2

/-! ## Codec round trip -/

/-- C3: for every 16-bit value `v`, `i2c_write` puts exactly two data bytes on the wire, and
whenever a transport hands these two bytes back in a read that is not refused, `i2c_read`
decodes them to `v`. -/
theorem codec_round_trip (v : Nat) (hv : v < 65536) (a : Nat) (wdev : i2c_bus_dev_t)
    (t : List Op) :
    ∃ b0 b1 : Nat, (i2c_write a v wdev t).2 = t ++ [Op.write [a % 256] [b0, b1]] ∧
      ∀ (a2 old : Nat) (rdev : i2c_bus_dev_t) (t2 : List Op) (s : Int),
        rdev.read t2 (read_pointer a2) 2 = (s, b0, b1) → 0 ≤ toInt8 s →
        (i2c_read a2 old rdev t2).2.1 = v := by
  refine ⟨v % 65536 / 256, v % 256, ?_, ?_⟩
  · rw [i2c_write_eq]; rfl
  · intro a2 old rdev t2 s hread hs
    have hn : ¬ toInt8 s < 0 := not_lt.mpr hs
    rw [i2c_read_eq]
    simp only [answer, hread, hn, if_false]
    omega

/-- C3, concrete instance: the value 0xABCD written to register 1. -/
theorem codec_round_trip_witness :
    ∃ b0 b1 : Nat,
      (i2c_write 1 0xABCD (const_dev 0 0) []).2 = [] ++ [Op.write [1 % 256] [b0, b1]] ∧
      ∀ (a2 old : Nat) (rdev : i2c_bus_dev_t) (t2 : List Op) (s : Int),
        rdev.read t2 (read_pointer a2) 2 = (s, b0, b1) → 0 ≤ toInt8 s →
        (i2c_read a2 old rdev t2).2.1 = 0xABCD :=
  codec_round_trip 0xABCD (by decide) 1 (const_dev 0 0) []

/-! ## `ads101x_start_reading` -/

theorem lor_mod_mod (a b : Nat) : (a ||| b % 65536) % 65536 = (a ||| b) % 65536 := by
  rw [Nat.lor_comm, mod_lor_mod, Nat.lor_comm]

theorem reg_write_mod (a v : Nat) : reg_write a (v % 65536) = reg_write a v := by
  simp only [reg_write, Nat.mod_mod]
  have e : v % 65536 % 256 = v % 256 := by omega
  rw [e]

/-- The word that `ads101x_start_reading` assembles step by step is the OR of all its
fields, as a 16-bit word; the `mode` argument does not enter it. -/
theorem start_reading_config_eq (h : ads101x_h) (me : ads101x_t) (mux : Nat) :
    ((((((h.ADS101X_REG_CONFIG_CQUE_1CONV ||| h.ADS101X_REG_CONFIG_CLAT_NONLAT |||
      h.ADS101X_REG_CONFIG_CPOL_ACTVLOW ||| h.ADS101X_REG_CONFIG_CMODE_TRAD) % 65536 |||
      h.ADS101X_REG_CONFIG_MODE_CONTIN) % 65536 ||| me.gain) % 65536 |||
      me.data_rate) % 65536 ||| mux % 65536) % 65536 |||
      h.ADS101X_REG_CONFIG_OS_SINGLE) % 65536
    = start_reading_word h me mux % 65536 := by
  simp only [mod_lor_mod, lor_mod_mod, start_reading_word]

/-- The whole of `ads101x_start_reading`: up to three register writes, each issued only if
the ones before it were not refused. -/
theorem start_reading_eq (h : ads101x_h) (me : ads101x_t) (mux mode : Nat) (t : List Op) :
    ads101x_start_reading h me mux mode t =
      if answer me.i2c_dev t
          (reg_write h.ADS101X_REG_POINTER_CONFIG (start_reading_word h me mux)) < 0 then
        ⟨ESP_FAIL, (), me,
          t ++ [reg_write h.ADS101X_REG_POINTER_CONFIG (start_reading_word h me mux)]⟩
      else if answer me.i2c_dev
          (t ++ [reg_write h.ADS101X_REG_POINTER_CONFIG (start_reading_word h me mux)])
          (reg_write h.ADS101X_REG_POINTER_HITHRESH 0x8000) < 0 then
        ⟨ESP_FAIL, (), me,
          t ++ [reg_write h.ADS101X_REG_POINTER_CONFIG (start_reading_word h me mux),
            reg_write h.ADS101X_REG_POINTER_HITHRESH 0x8000]⟩
      else if answer me.i2c_dev
          (t ++ [reg_write h.ADS101X_REG_POINTER_CONFIG (start_reading_word h me mux),
            reg_write h.ADS101X_REG_POINTER_HITHRESH 0x8000])
          (reg_write h.ADS101X_REG_POINTER_HITHRESH 0x0000) < 0 then
        ⟨ESP_FAIL, (), me,
          t ++ [reg_write h.ADS101X_REG_POINTER_CONFIG (start_reading_word h me mux),
            reg_write h.ADS101X_REG_POINTER_HITHRESH 0x8000,
            reg_write h.ADS101X_REG_POINTER_HITHRESH 0x0000]⟩
      else
        ⟨ESP_OK, (), me,
          t ++ [reg_write h.ADS101X_REG_POINTER_CONFIG (start_reading_word h me mux),
            reg_write h.ADS101X_REG_POINTER_HITHRESH 0x8000,
            reg_write h.ADS101X_REG_POINTER_HITHRESH 0x0000]⟩ := by
  simp only [ads101x_start_reading, ite_self, start_reading_config_eq, i2c_write_eq,
    reg_write_mod, List.append_assoc, List.singleton_append, List.cons_append, List.nil_append]

/-- The first transfer of `ads101x_start_reading` is the write of the config register. -/
theorem start_reading_trace (h : ads101x_h) (me : ads101x_t) (mux mode : Nat) (t : List Op) :
    ∃ rest, (ads101x_start_reading h me mux mode t).trace =
      t ++ reg_write h.ADS101X_REG_POINTER_CONFIG (start_reading_word h me mux) :: rest := by
  rw [start_reading_eq]
  split
  · exact ⟨[], rfl⟩
  · split
    · exact ⟨_, rfl⟩
    · split
      · exact ⟨_, rfl⟩
      · exact ⟨_, rfl⟩

/-! ## The completion probe and the polling loop -/

theorem land_top_bit_mod (x : Nat) : (x &&& 0x8000) % 256 = 0 := by
  have e1 : (0x8000 : Nat) = 2 ^ 15 := by norm_num
  have e2 : (256 : Nat) = 2 ^ 8 := by norm_num
  rw [e1, e2]
  apply Nat.eq_of_testBit_eq
  intro i
  simp only [Nat.testBit_mod_two_pow, Nat.testBit_and, Nat.testBit_two_pow, Nat.zero_testBit]
  by_cases hi : i < 8
  · have : ¬ (15 = i) := by omega
    simp [this]
  · simp [hi]

/-- The probe reads with no pointer phase, whatever the value of the config pointer. -/
theorem probe_pointer (h : ads101x_h) :
    read_pointer (h.ADS101X_REG_POINTER_CONFIG &&& 0x8000) = [] := by
  simp [read_pointer, land_top_bit_mod]

/-- The whole of `ads101x_conversion_complete`. -/
theorem conversion_complete_eq (h : ads101x_h) (me : ads101x_t) (flag : Bool) (t : List Op) :
    ads101x_conversion_complete h me flag t =
      if answer me.i2c_dev t (Op.read [] 2) < 0 then
        ⟨ESP_FAIL, flag, me, t ++ [Op.read [] 2]⟩
      else
        ⟨ESP_OK, decide (256 * ((me.i2c_dev.read t [] 2).2.1 % 256)
          + (me.i2c_dev.read t [] 2).2.2 % 256 ≠ 0), me, t ++ [Op.read [] 2]⟩ := by
  simp only [ads101x_conversion_complete, i2c_read_eq, probe_pointer]
  split <;> simp_all

theorem conversion_complete_trace (h : ads101x_h) (me : ads101x_t) (flag : Bool)
    (t : List Op) : (ads101x_conversion_complete h me flag t).trace = t ++ [Op.read [] 2] := by
  rw [conversion_complete_eq]
  split <;> rfl

/-- The polling loop only adds operations to the trace. -/
theorem poll_loop_trace (h : ads101x_h) (me : ads101x_t) (fuel : Nat) :
    ∀ (flag : Bool) (t : List Op), ∃ rest, (poll_loop h me fuel flag t).trace = t ++ rest := by
  induction fuel with
  | zero => intro flag t; exact ⟨[], by simp [poll_loop]⟩
  | succ n ih =>
    intro flag t
    simp only [poll_loop]
    split
    · obtain ⟨rest, hrest⟩ := ih (ads101x_conversion_complete h me flag
        (t ++ [Op.delay (5 * 1000)])).out
        (ads101x_conversion_complete h me flag (t ++ [Op.delay (5 * 1000)])).trace
      refine ⟨Op.delay (5 * 1000) :: Op.read [] 2 :: rest, ?_⟩
      rw [hrest, conversion_complete_trace]
      simp
    · refine ⟨[Op.delay (5 * 1000), Op.read [] 2], ?_⟩
      simp [conversion_complete_trace]

theorem get_last_trace (h : ads101x_h) (me : ads101x_t) (adc : Int) (t : List Op) :
    (ads101x_get_last_conversion_results h me adc t).trace =
      t ++ [Op.read (read_pointer h.ADS101X_REG_POINTER_CONVERT) 2] := by
  simp only [ads101x_get_last_conversion_results, i2c_read_eq]
  split
  · rfl
  · split <;> rfl

/-! ## `ads101x_read_single_ended`: channel validation -/

theorem read_single_ended_rejected (h : ads101x_h) (me : ads101x_t) (channel : Nat)
    (adc : Int) (fuel : Nat) (t : List Op) (hno : ¬ channel_ok h me channel) :
    ads101x_read_single_ended h me channel adc fuel t = ⟨some ESP_FAIL, adc, me, t⟩ := by
  have hrej : (if me.model = h.ADS101X_MODEL_5 then decide (channel > 3)
      else decide (channel > 1)) = true := by
    unfold channel_ok at hno
    by_cases hm : me.model = h.ADS101X_MODEL_5
    · simp only [hm, if_true, decide_eq_true_eq]
      by_contra hc
      exact hno (Or.inl ⟨hm, by omega⟩)
    · simp only [hm, if_false, decide_eq_true_eq]
      by_contra hc
      exact hno (Or.inr ⟨hm, by omega⟩)
  simp only [ads101x_read_single_ended, hrej, if_true]

theorem read_single_ended_accepted (h : ads101x_h) (me : ads101x_t) (channel : Nat)
    (adc : Int) (fuel : Nat) (t : List Op) (hok : channel_ok h me channel) :
    ads101x_read_single_ended h me channel adc fuel t =
      if (ads101x_start_reading h me channel h.ADS101X_MODE_ONESHOT t).ret ≠ ESP_OK then
        ⟨some ESP_FAIL, adc, me,
          (ads101x_start_reading h me channel h.ADS101X_MODE_ONESHOT t).trace⟩
      else if !(poll_loop h me fuel false
          (ads101x_start_reading h me channel h.ADS101X_MODE_ONESHOT t).trace).finished then
        ⟨none, adc, me, (poll_loop h me fuel false
          (ads101x_start_reading h me channel h.ADS101X_MODE_ONESHOT t).trace).trace⟩
      else if (ads101x_get_last_conversion_results h me adc (poll_loop h me fuel false
          (ads101x_start_reading h me channel h.ADS101X_MODE_ONESHOT t).trace).trace).ret
            ≠ ESP_OK then
        ⟨some ESP_FAIL,
          (ads101x_get_last_conversion_results h me adc (poll_loop h me fuel false
            (ads101x_start_reading h me channel h.ADS101X_MODE_ONESHOT t).trace).trace).out,
          me,
          (ads101x_get_last_conversion_results h me adc (poll_loop h me fuel false
            (ads101x_start_reading h me channel h.ADS101X_MODE_ONESHOT t).trace).trace).trace⟩
      else
        ⟨some ESP_OK,
          (ads101x_get_last_conversion_results h me adc (poll_loop h me fuel false
            (ads101x_start_reading h me channel h.ADS101X_MODE_ONESHOT t).trace).trace).out,
          me,
          (ads101x_get_last_conversion_results h me adc (poll_loop h me fuel false
            (ads101x_start_reading h me channel h.ADS101X_MODE_ONESHOT t).trace).trace).trace⟩ := by
  have hrej : (if me.model = h.ADS101X_MODEL_5 then decide (channel > 3)
      else decide (channel > 1)) = false := by
    unfold channel_ok at hok
    rcases hok with ⟨hm, hc⟩ | ⟨hm, hc⟩
    · simp only [hm, if_true, decide_eq_false_iff_not]; omega
    · simp only [hm, if_false, decide_eq_false_iff_not]; omega
  simp only [ads101x_read_single_ended, hrej, Bool.false_eq_true, if_false]
  split_ifs with h1 h2 h3
  · rfl
  · rfl
  · rfl
  · rw [not_not.mp h3]

/-- An accepted call starts with the write of the config register, however long it polls. -/
theorem read_single_ended_first_op (h : ads101x_h) (me : ads101x_t) (channel : Nat)
    (adc : Int) (fuel : Nat) (t : List Op) (hok : channel_ok h me channel) :
    ∃ rest, (ads101x_read_single_ended h me channel adc fuel t).trace =
      t ++ reg_write h.ADS101X_REG_POINTER_CONFIG (start_reading_word h me channel) :: rest := by
  obtain ⟨r1, h1⟩ := start_reading_trace h me channel h.ADS101X_MODE_ONESHOT t
  obtain ⟨r2, h2⟩ := poll_loop_trace h me fuel false
    (ads101x_start_reading h me channel h.ADS101X_MODE_ONESHOT t).trace
  rw [read_single_ended_accepted h me channel adc fuel t hok]
  split
  · exact ⟨r1, h1⟩
  · split
    · exact ⟨r1 ++ r2, by rw [h2, h1]; simp⟩
    · split
      · exact ⟨r1 ++ r2 ++ [Op.read (read_pointer h.ADS101X_REG_POINTER_CONVERT) 2], by
          rw [get_last_trace, h2, h1]; simp⟩
      · exact ⟨r1 ++ r2 ++ [Op.read (read_pointer h.ADS101X_REG_POINTER_CONVERT) 2], by
          rw [get_last_trace, h2, h1]; simp⟩

/-- C4: channel validation of `ads101x_read_single_ended`.  On the four-channel model
`ADS101X_MODEL_5` every channel above 3 is rejected, on every other model every channel
above 1; a rejected call returns `ESP_FAIL` and leaves the trace as it was (no transfer at
all).  Channels 0..3 on the four-channel model and 0..1 on the others pass, and such a call
issues the write of the config register as its first operation, for every length of the
polling phase. -/
theorem read_single_ended_channel_validation (h : ads101x_h) (me : ads101x_t) (channel : Nat)
    (adc : Int) (fuel : Nat) (t : List Op) :
    (me.model = h.ADS101X_MODEL_5 → 3 < channel →
      (ads101x_read_single_ended h me channel adc fuel t).ret = some ESP_FAIL ∧
      (ads101x_read_single_ended h me channel adc fuel t).trace = t) ∧
    (me.model ≠ h.ADS101X_MODEL_5 → 1 < channel →
      (ads101x_read_single_ended h me channel adc fuel t).ret = some ESP_FAIL ∧
      (ads101x_read_single_ended h me channel adc fuel t).trace = t) ∧
    (me.model = h.ADS101X_MODEL_5 → channel ≤ 3 →
      ∃ rest, (ads101x_read_single_ended h me channel adc fuel t).trace =
        t ++ Op.write [h.ADS101X_REG_POINTER_CONFIG % 256]
          [start_reading_word h me channel % 65536 / 256,
            start_reading_word h me channel % 256] :: rest) ∧
    (me.model ≠ h.ADS101X_MODEL_5 → channel ≤ 1 →
      ∃ rest, (ads101x_read_single_ended h me channel adc fuel t).trace =
        t ++ Op.write [h.ADS101X_REG_POINTER_CONFIG % 256]
          [start_reading_word h me channel % 65536 / 256,
            start_reading_word h me channel % 256] :: rest) := by
  refine ⟨fun hm hc => ?_, fun hm hc => ?_, fun hm hc => ?_, fun hm hc => ?_⟩
  · have hno : ¬ channel_ok h me channel := by
      unfold channel_ok
      rintro (⟨_, h3⟩ | ⟨hne, _⟩)
      · omega
      · exact hne hm
    rw [read_single_ended_rejected h me channel adc fuel t hno]
    exact ⟨rfl, rfl⟩
  · have hno : ¬ channel_ok h me channel := by
      unfold channel_ok
      rintro (⟨he, _⟩ | ⟨_, h1⟩)
      · exact hm he
      · omega
    rw [read_single_ended_rejected h me channel adc fuel t hno]
    exact ⟨rfl, rfl⟩
  · exact read_single_ended_first_op h me channel adc fuel t (Or.inl ⟨hm, hc⟩)
  · exact read_single_ended_first_op h me channel adc fuel t (Or.inr ⟨hm, hc⟩)

/-- C4, concrete instance: on the four-channel sample instance channel 4 is rejected with
an empty trace and channel 3 starts with the config write; on a two-channel instance
channel 2 is rejected and channel 1 starts with the config write. -/
theorem read_single_ended_channel_validation_witness :
    ((ads101x_read_single_ended datasheet_h (sample_me (const_dev 0x80 0) 4) 4 0 3 []).ret
        = some ESP_FAIL ∧
      (ads101x_read_single_ended datasheet_h (sample_me (const_dev 0x80 0) 4) 4 0 3 []).trace
        = []) ∧
    (∃ rest,
      (ads101x_read_single_ended datasheet_h (sample_me (const_dev 0x80 0) 4) 3 0 3 []).trace
        = [] ++ Op.write [datasheet_h.ADS101X_REG_POINTER_CONFIG % 256]
          [start_reading_word datasheet_h (sample_me (const_dev 0x80 0) 4) 3 % 65536 / 256,
            start_reading_word datasheet_h (sample_me (const_dev 0x80 0) 4) 3 % 256] :: rest) :=
  ⟨(read_single_ended_channel_validation datasheet_h (sample_me (const_dev 0x80 0) 4) 4 0 3
      []).1 rfl (by decide),
    (read_single_ended_channel_validation datasheet_h (sample_me (const_dev 0x80 0) 4) 3 0 3
      []).2.2.1 rfl (by decide)⟩

/-! ## Error codes -/

theorem start_reading_ret (h : ads101x_h) (me : ads101x_t) (mux mode : Nat) (t : List Op) :
    (ads101x_start_reading h me mux mode t).ret = ESP_OK ∨
      (ads101x_start_reading h me mux mode t).ret = ESP_FAIL := by
  rw [start_reading_eq]
  split_ifs <;> simp

/-- C5 as stated fails: on the four-channel sample instance the out-of-range channel 4, a
refused config write (status -1) on channel 0, and a refused read of the conversion register
(status -1, after a successful probe) all return the same code `ESP_FAIL`. -/
theorem invalid_channel_same_code_as_transport_failure :
    (ads101x_read_single_ended datasheet_h (sample_me (script_dev [] []) 4) 4 0 3 []).ret
      = some ESP_FAIL ∧
    (ads101x_read_single_ended datasheet_h (sample_me (script_dev [-1] []) 4) 0 0 3 []).ret
      = some ESP_FAIL ∧
    (ads101x_read_single_ended datasheet_h
      (sample_me (script_dev [] [(0, 0x80, 0), (-1, 0, 0)]) 4) 0 0 3 []).ret = some ESP_FAIL ∧
    ¬ ((ads101x_read_single_ended datasheet_h (sample_me (script_dev [] []) 4) 4 0 3 []).ret
      ≠ (ads101x_read_single_ended datasheet_h (sample_me (script_dev [-1] []) 4) 0 0 3 []).ret)
    := by
  decide

/-! ## `ads101x_start_reading`: the three writes -/

/-- C7 fails on the code: the callers test `< 0`, so a nonzero positive transport status is
not taken as a failure.  With status 1 on every transfer, `ads101x_start_reading` issues all
three writes and returns `ESP_OK`, `ads101x_start_comparator_single_ended` issues both its
writes and returns `ESP_OK`, and `ads101x_get_last_conversion_results` returns `ESP_OK` and
stores the decoded buffer. -/
theorem positive_status_not_a_failure :
    (ads101x_start_reading datasheet_h (sample_me (status_dev 1 1 0x12 0x30) 4) 0 1 []).ret
      = ESP_OK ∧
    (ads101x_start_reading datasheet_h (sample_me (status_dev 1 1 0x12 0x30) 4) 0 1 []).trace
      = [Op.write [1] [0x82, 0x80], Op.write [3] [0x80, 0x00], Op.write [3] [0x00, 0x00]] ∧
    (ads101x_start_comparator_single_ended datasheet_h (sample_me (status_dev 1 1 0x12 0x30) 4)
      0 100 []).ret = ESP_OK ∧
    (ads101x_start_comparator_single_ended datasheet_h (sample_me (status_dev 1 1 0x12 0x30) 4)
      0 100 []).trace = [Op.write [3] [0x06, 0x40], Op.write [1] [0x02, 0x84]] ∧
    (ads101x_get_last_conversion_results datasheet_h (sample_me (status_dev 1 1 0x12 0x30) 4)
      0 []).ret = ESP_OK ∧
    (ads101x_get_last_conversion_results datasheet_h (sample_me (status_dev 1 1 0x12 0x30) 4)
      0 []).out = 0x123 := by
  decide

/-! ## The config word -/

/-- C8: config-word construction in `ads101x_start_reading`, for every gain, data rate, mux
selector and mode.  The first transfer is the write to the config register of the word `W`,
its high byte first and its low byte second, where `W` is, as a 16-bit word, the bitwise OR
of the fixed fields (queue assert-after-1, non-latching, active-low, traditional comparator,
continuous-conversion mode bits), the gain field, the data-rate field, the mux selector and
the single-shot start bit.  When every field fits in 16 bits `W` is that OR itself; when the
start bit is the top bit 0x8000, bit 15 of `W` is set; and the whole call is the same for
any two values of `mode`. -/
theorem start_reading_config_word (h : ads101x_h) (me : ads101x_t) (mux mode : Nat)
    (t : List Op) :
    (∃ rest, (ads101x_start_reading h me mux mode t).trace =
      t ++ Op.write [h.ADS101X_REG_POINTER_CONFIG % 256]
        [(start_reading_word h me mux % 65536) / 256,
          (start_reading_word h me mux % 65536) % 256] :: rest) ∧
    start_reading_word h me mux =
      (h.ADS101X_REG_CONFIG_CQUE_1CONV ||| h.ADS101X_REG_CONFIG_CLAT_NONLAT |||
        h.ADS101X_REG_CONFIG_CPOL_ACTVLOW ||| h.ADS101X_REG_CONFIG_CMODE_TRAD |||
        h.ADS101X_REG_CONFIG_MODE_CONTIN ||| me.gain ||| me.data_rate ||| mux |||
        h.ADS101X_REG_CONFIG_OS_SINGLE) ∧
    (h.ADS101X_REG_CONFIG_CQUE_1CONV < 65536 → h.ADS101X_REG_CONFIG_CLAT_NONLAT < 65536 →
      h.ADS101X_REG_CONFIG_CPOL_ACTVLOW < 65536 → h.ADS101X_REG_CONFIG_CMODE_TRAD < 65536 →
      h.ADS101X_REG_CONFIG_MODE_CONTIN < 65536 → me.gain < 65536 → me.data_rate < 65536 →
      mux < 65536 → h.ADS101X_REG_CONFIG_OS_SINGLE < 65536 →
      start_reading_word h me mux % 65536 = start_reading_word h me mux) ∧
    (h.ADS101X_REG_CONFIG_OS_SINGLE = 0x8000 →
      (start_reading_word h me mux % 65536).testBit 15 = true) ∧
    (∀ mode2, ads101x_start_reading h me mux mode2 t = ads101x_start_reading h me mux mode t)
    := by
  refine ⟨?_, rfl, ?_, ?_, ?_⟩
  · obtain ⟨rest, hrest⟩ := start_reading_trace h me mux mode t
    refine ⟨rest, ?_⟩
    rw [hrest]
    simp only [reg_write]
    have e : start_reading_word h me mux % 65536 % 256 = start_reading_word h me mux % 256 := by
      omega
    rw [e]
  · intro h1 h2 h3 h4 h5 h6 h7 h8 h9
    apply Nat.mod_eq_of_lt
    have e : (65536 : Nat) = 2 ^ 16 := by norm_num
    rw [e] at h1 h2 h3 h4 h5 h6 h7 h8 h9 ⊢
    unfold start_reading_word
    repeat apply Nat.or_lt_two_pow
    all_goals assumption
  · intro hos
    have e : (65536 : Nat) = 2 ^ 16 := by norm_num
    rw [e, Nat.testBit_mod_two_pow]
    unfold start_reading_word
    rw [Nat.testBit_or, hos]
    have e2 : Nat.testBit 0x8000 15 = true := by decide
    simp [e2]
  · intro mode2
    rw [start_reading_eq, start_reading_eq]

/-- C8, concrete instance: gain 0x0200, data rate 0x0080, mux 0x3000 with the datasheet
header give the word 0xB280, sent as 0xB2 then 0x80, under either mode. -/
theorem start_reading_config_word_witness :
    start_reading_word datasheet_h (sample_me (script_dev [] []) 4) 0x3000 % 65536
      = start_reading_word datasheet_h (sample_me (script_dev [] []) 4) 0x3000 ∧
    (start_reading_word datasheet_h (sample_me (script_dev [] []) 4) 0x3000 % 65536).testBit 15
      = true ∧
    ads101x_start_reading datasheet_h (sample_me (script_dev [] []) 4) 0x3000 0 []
      = ads101x_start_reading datasheet_h (sample_me (script_dev [] []) 4) 0x3000 1 [] :=
  ⟨(start_reading_config_word datasheet_h (sample_me (script_dev [] []) 4) 0x3000 1 []).2.2.1
      (by decide) (by decide) (by decide) (by decide) (by decide) (by decide) (by decide)
      (by decide) (by decide),
    (start_reading_config_word datasheet_h (sample_me (script_dev [] []) 4) 0x3000 1 []).2.2.2.1
      rfl,
    (start_reading_config_word datasheet_h (sample_me (script_dev [] []) 4) 0x3000 1 []).2.2.2.2
      0⟩

/-! ## Where the code departs from the specification -/

/-- C9 fails on the code: `ads101x_conversion_complete` casts the whole value read to
`bool`.  A successful read of 0x0001 (bytes 0x00, 0x01), whose top bit is clear, sets the
completion flag to true. -/
theorem conversion_complete_true_on_clear_top_bit :
    (ads101x_conversion_complete datasheet_h (sample_me (const_dev 0x00 0x01) 4) false []).ret
      = ESP_OK ∧
    (ads101x_conversion_complete datasheet_h (sample_me (const_dev 0x00 0x01) 4) false []).out
      = true ∧
    (ads101x_conversion_complete datasheet_h (sample_me (const_dev 0x00 0x01) 4) false []).trace
      = [Op.read [] 2] ∧
    (0x0001 &&& 0x8000 : Nat) = 0 := by
  decide

/-- C10 fails on the code: the polling loop discards the return code of
`ads101x_conversion_complete`.  With a transport whose first probe is refused (status -1),
whose second probe reads 0x8000 and whose read of the conversion register gives 0x1230,
`ads101x_read_single_ended` and `ads101x_read_differential_0_1` do not return after the
refused probe: they delay and probe again, read the result and return `ESP_OK`. -/
theorem refused_probe_is_retried :
    (ads101x_read_single_ended datasheet_h
      (sample_me (script_dev [] [(-1, 0, 0), (0, 0x80, 0), (0, 0x12, 0x30)]) 4) 0 0 5 []).ret
      = some ESP_OK ∧
    (ads101x_read_single_ended datasheet_h
      (sample_me (script_dev [] [(-1, 0, 0), (0, 0x80, 0), (0, 0x12, 0x30)]) 4) 0 0 5 []).trace
      = [Op.write [1] [0x82, 0x80], Op.write [3] [0x80, 0x00], Op.write [3] [0x00, 0x00],
          Op.delay 5000, Op.read [] 2, Op.delay 5000, Op.read [] 2, Op.read [] 2] ∧
    (ads101x_read_single_ended datasheet_h
      (sample_me (script_dev [] [(-1, 0, 0), (0, 0x80, 0), (0, 0x12, 0x30)]) 4) 0 0 5
      []).adc_result = 0x123 ∧
    (ads101x_read_differential_0_1 datasheet_h
      (sample_me (script_dev [] [(-1, 0, 0), (0, 0x80, 0), (0, 0x12, 0x30)]) 4) 0 5 []).ret
      = some ESP_OK ∧
    (ads101x_read_differential_0_1 datasheet_h
      (sample_me (script_dev [] [(-1, 0, 0), (0, 0x80, 0), (0, 0x12, 0x30)]) 4) 0 5 []).trace
      = [Op.write [1] [0x82, 0x80], Op.write [3] [0x80, 0x00], Op.write [3] [0x00, 0x00],
          Op.delay 5000, Op.read [] 2, Op.delay 5000, Op.read [] 2, Op.read [] 2] := by
  decide

/-! ## Register framing -/

/-- C13: register framing.  For every 8-bit register address `a` and 16-bit value `v`,
`i2c_write` adds exactly one transfer to the trace, a write whose pointer phase is the
single byte `a` and whose data phase is the two bytes `v / 256`, `v % 256` in this order,
and returns the status of that transfer.  `i2c_read` with a nonzero address issues one
two-byte read addressed by the single byte `a` and, when the read is not refused, decodes
the bytes `b0`, `b1` it receives as `256 * b0 + b1`. -/
theorem register_framing (a v : Nat) (ha : a < 256) (hv : v < 65536) (dev : i2c_bus_dev_t)
    (t : List Op) :
    i2c_write a v dev t =
      (toInt8 (dev.write t [a] [v / 256, v % 256]), t ++ [Op.write [a] [v / 256, v % 256]]) ∧
    (∀ (old b0 b1 : Nat) (s : Int), a ≠ 0 → b0 < 256 → b1 < 256 →
      dev.read t [a] 2 = (s, b0, b1) → 0 ≤ toInt8 s →
      i2c_read a old dev t = (toInt8 s, 256 * b0 + b1, t ++ [Op.read [a] 2])) := by
  have ea : a % 256 = a := Nat.mod_eq_of_lt ha
  have ev : v % 65536 = v := Nat.mod_eq_of_lt hv
  refine ⟨?_, ?_⟩
  · rw [i2c_write_eq]
    simp only [reg_write, answer, ea, ev]
  · intro old b0 b1 s hne hb0 hb1 hread hs
    have hp : read_pointer a = [a] := by
      simp only [read_pointer, ea, ne_eq, hne, not_false_eq_true, if_true]
    rw [i2c_read_eq, hp]
    simp only [answer, hread, not_lt.mpr hs, if_false, Nat.mod_eq_of_lt hb0,
      Nat.mod_eq_of_lt hb1]

/-- C13, concrete instance: the value 0x8583 written to register 1 goes out as the pointer
byte 1 and the data bytes 0x85, 0x83; the bytes 0x12, 0x34 read from register 3 decode to
0x1234. -/
theorem register_framing_witness :
    i2c_write 1 0x8583 (const_dev 0x12 0x34) [] = (0, [Op.write [1] [0x85, 0x83]]) ∧
    i2c_read 3 0 (const_dev 0x12 0x34) [] = (0, 0x1234, [Op.read [3] 2]) :=
  ⟨(register_framing 1 0x8583 (by decide) (by decide) (const_dev 0x12 0x34) []).1,
    (register_framing 3 0 (by decide) (by decide) (const_dev 0x12 0x34) []).2 0 0x12 0x34 0
      (by decide) (by decide) (by decide) rfl (by decide)⟩

/-! ## `ads101x_start_comparator_single_ended` -/

/-- The word that `ads101x_start_comparator_single_ended` assembles step by step is the OR
of all its fields, as a 16-bit word. -/
theorem comparator_config_eq (h : ads101x_h) (me : ads101x_t) (channel : Nat) :
    ((((h.ADS101X_REG_CONFIG_CQUE_1CONV ||| h.ADS101X_REG_CONFIG_CLAT_LATCH |||
      h.ADS101X_REG_CONFIG_CPOL_ACTVLOW ||| h.ADS101X_REG_CONFIG_CMODE_TRAD |||
      h.ADS101X_REG_CONFIG_MODE_CONTIN) % 65536 ||| me.gain) % 65536 |||
      me.data_rate) % 65536 ||| channel) % 65536
    = comparator_word h me channel % 65536 := by
  simp only [mod_lor_mod, comparator_word]

/-- The whole of `ads101x_start_comparator_single_ended`: the write of the high-threshold
register, then, unless that one was refused, the write of the config register. -/
theorem start_comparator_eq (h : ads101x_h) (me : ads101x_t) (channel : Nat)
    (threshold : Int) (t : List Op) :
    ads101x_start_comparator_single_ended h me channel threshold t =
      if answer me.i2c_dev t (reg_write h.ADS101X_REG_POINTER_HITHRESH
          (threshold_word me.bit_shift threshold)) < 0 then
        ⟨ESP_FAIL, (), me, t ++ [reg_write h.ADS101X_REG_POINTER_HITHRESH
          (threshold_word me.bit_shift threshold)]⟩
      else if answer me.i2c_dev
          (t ++ [reg_write h.ADS101X_REG_POINTER_HITHRESH
            (threshold_word me.bit_shift threshold)])
          (reg_write h.ADS101X_REG_POINTER_CONFIG (comparator_word h me channel)) < 0 then
        ⟨ESP_FAIL, (), me, t ++ [reg_write h.ADS101X_REG_POINTER_HITHRESH
            (threshold_word me.bit_shift threshold),
          reg_write h.ADS101X_REG_POINTER_CONFIG (comparator_word h me channel)]⟩
      else
        ⟨ESP_OK, (), me, t ++ [reg_write h.ADS101X_REG_POINTER_HITHRESH
            (threshold_word me.bit_shift threshold),
          reg_write h.ADS101X_REG_POINTER_CONFIG (comparator_word h me channel)]⟩ := by
  simp only [ads101x_start_comparator_single_ended, comparator_config_eq, i2c_write_eq,
    reg_write_mod, threshold_word, List.append_assoc, List.singleton_append]

theorem threshold_word_lt (bit_shift : Nat) (threshold : Int) :
    threshold_word bit_shift threshold < 65536 := by
  unfold threshold_word
  have h1 : 0 ≤ (threshold * 2 ^ bit_shift) % 65536 := Int.emod_nonneg _ (by norm_num)
  have h2 : (threshold * 2 ^ bit_shift) % 65536 < 65536 := Int.emod_lt_of_pos _ (by norm_num)
  omega

/-- C14: `ads101x_start_comparator_single_ended`, for every instance, channel and threshold,
on a transport that refuses neither write.  The call returns `ESP_OK` and adds exactly two
transfers to the trace, both writes and no read: the high-threshold register receives
`threshold << bit_shift` truncated to 16 bits, then the config register receives, as a
16-bit word, the bitwise OR of the comparator fields (assert on first match, latching,
active-low, traditional, continuous-conversion mode) with the gain, the data rate and the
channel; that word is the OR itself when every field fits in 16 bits. -/
theorem start_comparator_two_writes (h : ads101x_h) (me : ads101x_t) (channel : Nat)
    (threshold : Int) (t : List Op)
    (h1 : 0 ≤ answer me.i2c_dev t (reg_write h.ADS101X_REG_POINTER_HITHRESH
      (threshold_word me.bit_shift threshold)))
    (h2 : 0 ≤ answer me.i2c_dev
      (t ++ [reg_write h.ADS101X_REG_POINTER_HITHRESH (threshold_word me.bit_shift threshold)])
      (reg_write h.ADS101X_REG_POINTER_CONFIG (comparator_word h me channel))) :
    (ads101x_start_comparator_single_ended h me channel threshold t).ret = ESP_OK ∧
    (ads101x_start_comparator_single_ended h me channel threshold t).trace =
      t ++ [Op.write [h.ADS101X_REG_POINTER_HITHRESH % 256]
          [threshold_word me.bit_shift threshold / 256,
            threshold_word me.bit_shift threshold % 256],
        Op.write [h.ADS101X_REG_POINTER_CONFIG % 256]
          [comparator_word h me channel % 65536 / 256,
            comparator_word h me channel % 65536 % 256]] ∧
    threshold_word me.bit_shift threshold = ((threshold * 2 ^ me.bit_shift) % 65536).toNat ∧
    comparator_word h me channel =
      (h.ADS101X_REG_CONFIG_CQUE_1CONV ||| h.ADS101X_REG_CONFIG_CLAT_LATCH |||
        h.ADS101X_REG_CONFIG_CPOL_ACTVLOW ||| h.ADS101X_REG_CONFIG_CMODE_TRAD |||
        h.ADS101X_REG_CONFIG_MODE_CONTIN ||| me.gain ||| me.data_rate ||| channel) ∧
    (h.ADS101X_REG_CONFIG_CQUE_1CONV < 65536 → h.ADS101X_REG_CONFIG_CLAT_LATCH < 65536 →
      h.ADS101X_REG_CONFIG_CPOL_ACTVLOW < 65536 → h.ADS101X_REG_CONFIG_CMODE_TRAD < 65536 →
      h.ADS101X_REG_CONFIG_MODE_CONTIN < 65536 → me.gain < 65536 → me.data_rate < 65536 →
      channel < 65536 → comparator_word h me channel % 65536 = comparator_word h me channel)
    := by
  refine ⟨?_, ?_, rfl, rfl, ?_⟩
  · rw [start_comparator_eq, if_neg (not_lt.mpr h1), if_neg (not_lt.mpr h2)]
  · rw [start_comparator_eq, if_neg (not_lt.mpr h1), if_neg (not_lt.mpr h2)]
    have e1 : threshold_word me.bit_shift threshold % 65536
        = threshold_word me.bit_shift threshold :=
      Nat.mod_eq_of_lt (threshold_word_lt _ _)
    have e2 : comparator_word h me channel % 65536 % 256
        = comparator_word h me channel % 256 := by omega
    simp only [reg_write, e1, e2]
  · intro g1 g2 g3 g4 g5 g6 g7 g8
    apply Nat.mod_eq_of_lt
    have e : (65536 : Nat) = 2 ^ 16 := by norm_num
    rw [e] at g1 g2 g3 g4 g5 g6 g7 g8 ⊢
    unfold comparator_word
    repeat apply Nat.or_lt_two_pow
    all_goals assumption

/-- C14, concrete instance: channel 1 and threshold 100 on the sample instance (gain
0x0200, data rate 0x0080, 12-bit results) with the datasheet header: 100 << 4 = 0x0640 goes
to register 3, then the word 0x0285 goes to register 1. -/
theorem start_comparator_two_writes_witness :
    (ads101x_start_comparator_single_ended datasheet_h (sample_me (script_dev [] []) 4) 1 100
      []).ret = ESP_OK ∧
    (ads101x_start_comparator_single_ended datasheet_h (sample_me (script_dev [] []) 4) 1 100
      []).trace = [Op.write [3] [0x06, 0x40], Op.write [1] [0x02, 0x85]] :=
  have w := start_comparator_two_writes datasheet_h (sample_me (script_dev [] []) 4) 1 100 []
    (by decide) (by decide)
  ⟨w.1, w.2.1.trans (by decide)⟩

/-! ## The instance across calls -/

theorem read_single_ended_me (h : ads101x_h) (me : ads101x_t) (channel : Nat) (adc : Int)
    (fuel : Nat) (t : List Op) : (ads101x_read_single_ended h me channel adc fuel t).me = me := by
  simp only [ads101x_read_single_ended]
  split_ifs <;> rfl

theorem start_reading_me (h : ads101x_h) (me : ads101x_t) (mux mode : Nat) (t : List Op) :
    (ads101x_start_reading h me mux mode t).me = me := by
  rw [start_reading_eq]
  split_ifs <;> rfl

theorem start_comparator_me (h : ads101x_h) (me : ads101x_t) (channel : Nat)
    (threshold : Int) (t : List Op) :
    (ads101x_start_comparator_single_ended h me channel threshold t).me = me := by
  rw [start_comparator_eq]
  split_ifs <;> rfl

theorem conversion_complete_me (h : ads101x_h) (me : ads101x_t) (flag : Bool) (t : List Op) :
    (ads101x_conversion_complete h me flag t).me = me := by
  rw [conversion_complete_eq]
  split_ifs <;> rfl

theorem get_last_me (h : ads101x_h) (me : ads101x_t) (adc : Int) (t : List Op) :
    (ads101x_get_last_conversion_results h me adc t).me = me := by
  simp only [ads101x_get_last_conversion_results]
  split_ifs <;> rfl

theorem oneshot_read_me (h : ads101x_h) (me : ads101x_t) (mux : Nat) (adc : Int)
    (fuel : Nat) (t : List Op) : (oneshot_read h me mux adc fuel t).me = me := by
  simp only [oneshot_read]
  split_ifs <;> rfl

theorem read_differential_0_1_eq (h : ads101x_h) (me : ads101x_t) (adc : Int) (fuel : Nat)
    (t : List Op) : ads101x_read_differential_0_1 h me adc fuel t =
      oneshot_read h me h.ADS101X_REG_CONFIG_MUX_DIFF_0_1 adc fuel t := rfl

theorem read_differential_0_3_eq (h : ads101x_h) (me : ads101x_t) (adc : Int) (fuel : Nat)
    (t : List Op) : ads101x_read_differential_0_3 h me adc fuel t =
      oneshot_read h me h.ADS101X_REG_CONFIG_MUX_DIFF_0_3 adc fuel t := rfl

theorem read_differential_1_3_eq (h : ads101x_h) (me : ads101x_t) (adc : Int) (fuel : Nat)
    (t : List Op) : ads101x_read_differential_1_3 h me adc fuel t =
      oneshot_read h me h.ADS101X_REG_CONFIG_MUX_DIFF_1_3 adc fuel t := rfl

theorem read_differential_2_3_eq (h : ads101x_h) (me : ads101x_t) (adc : Int) (fuel : Nat)
    (t : List Op) : ads101x_read_differential_2_3 h me adc fuel t =
      oneshot_read h me h.ADS101X_REG_CONFIG_MUX_DIFF_2_3 adc fuel t := rfl

/-- C15: `bit_shift` and `model` never change.  Every operation that takes an instance
leaves both fields as they were, whatever the transport answers and however long a read
polls: the two setters, `ads101x_start_reading`, `ads101x_conversion_complete`,
`ads101x_get_last_conversion_results`, the single-ended read, the four differential reads,
`ads101x_start_comparator_single_ended` and `ads101x_compute_volts`.  (The two getters only
return a field of the instance.) -/
theorem bit_shift_and_model_fixed {F : Type} (ops : float_ops F) (h : ads101x_h)
    (me : ads101x_t) (g d mux mode channel fuel : Nat) (flag : Bool) (adc threshold counts : Int)
    (t : List Op) :
    ((ads101x_set_gain me g).bit_shift = me.bit_shift ∧
      (ads101x_set_gain me g).model = me.model) ∧
    ((ads101x_set_data_rate me d).bit_shift = me.bit_shift ∧
      (ads101x_set_data_rate me d).model = me.model) ∧
    ((ads101x_start_reading h me mux mode t).me.bit_shift = me.bit_shift ∧
      (ads101x_start_reading h me mux mode t).me.model = me.model) ∧
    ((ads101x_conversion_complete h me flag t).me.bit_shift = me.bit_shift ∧
      (ads101x_conversion_complete h me flag t).me.model = me.model) ∧
    ((ads101x_get_last_conversion_results h me adc t).me.bit_shift = me.bit_shift ∧
      (ads101x_get_last_conversion_results h me adc t).me.model = me.model) ∧
    ((ads101x_read_single_ended h me channel adc fuel t).me.bit_shift = me.bit_shift ∧
      (ads101x_read_single_ended h me channel adc fuel t).me.model = me.model) ∧
    ((ads101x_read_differential_0_1 h me adc fuel t).me.bit_shift = me.bit_shift ∧
      (ads101x_read_differential_0_1 h me adc fuel t).me.model = me.model) ∧
    ((ads101x_read_differential_0_3 h me adc fuel t).me.bit_shift = me.bit_shift ∧
      (ads101x_read_differential_0_3 h me adc fuel t).me.model = me.model) ∧
    ((ads101x_read_differential_1_3 h me adc fuel t).me.bit_shift = me.bit_shift ∧
      (ads101x_read_differential_1_3 h me adc fuel t).me.model = me.model) ∧
    ((ads101x_read_differential_2_3 h me adc fuel t).me.bit_shift = me.bit_shift ∧
      (ads101x_read_differential_2_3 h me adc fuel t).me.model = me.model) ∧
    ((ads101x_start_comparator_single_ended h me channel threshold t).me.bit_shift
        = me.bit_shift ∧
      (ads101x_start_comparator_single_ended h me channel threshold t).me.model = me.model) ∧
    ((ads101x_compute_volts ops h me counts).2.bit_shift = me.bit_shift ∧
      (ads101x_compute_volts ops h me counts).2.model = me.model) := by
  rw [read_differential_0_1_eq, read_differential_0_3_eq, read_differential_1_3_eq,
    read_differential_2_3_eq, start_reading_me, conversion_complete_me, get_last_me,
    read_single_ended_me, start_comparator_me]
  rw [oneshot_read_me, oneshot_read_me, oneshot_read_me, oneshot_read_me]
  exact ⟨⟨rfl, rfl⟩, ⟨rfl, rfl⟩, ⟨rfl, rfl⟩, ⟨rfl, rfl⟩, ⟨rfl, rfl⟩, ⟨rfl, rfl⟩, ⟨rfl, rfl⟩,
    ⟨rfl, rfl⟩, ⟨rfl, rfl⟩, ⟨rfl, rfl⟩, ⟨rfl, rfl⟩, ⟨rfl, rfl⟩⟩

/-! ## Setters and getters -/

/-- C16: the setters are unchecked pass-through.  For every value `g`, valid gain level or
not, `ads101x_get_gain` after `ads101x_set_gain g` returns `g` and the data rate is as
before; for every value `d`, `ads101x_get_data_rate` after `ads101x_set_data_rate d` returns
`d` and the gain is as before.  A setter returns nothing but the instance (it has no return
code and no access to the trace), and it leaves the transport binding, the model and the
bit shift as they were. -/
theorem setters_pass_through (me : ads101x_t) (g d : Nat) :
    ads101x_get_gain (ads101x_set_gain me g) = g ∧
    ads101x_get_data_rate (ads101x_set_gain me g) = ads101x_get_data_rate me ∧
    ads101x_get_data_rate (ads101x_set_data_rate me d) = d ∧
    ads101x_get_gain (ads101x_set_data_rate me d) = ads101x_get_gain me ∧
    ads101x_set_gain me g = { me with gain := g } ∧
    ads101x_set_data_rate me d = { me with data_rate := d } :=
  ⟨rfl, rfl, rfl, rfl, rfl, rfl⟩

/-! ## The polling loop, round by round -/

/-- Starting from a false flag, the flag after a probe is what the probe reports. -/
theorem conversion_complete_out (h : ads101x_h) (me : ads101x_t) (hist : List Op) :
    (ads101x_conversion_complete h me false hist).out
      = probe_reports_complete me.i2c_dev hist := by
  rw [conversion_complete_eq]
  unfold probe_reports_complete
  by_cases hs : answer me.i2c_dev hist (Op.read [] 2) < 0
  · simp [hs]
  · simp [hs, not_lt.mp hs]

/-- One round of the polling loop. -/
theorem poll_loop_succ (h : ads101x_h) (me : ads101x_t) (fuel : Nat) (T : List Op) :
    poll_loop h me (fuel + 1) false T =
      if probe_reports_complete me.i2c_dev (T ++ [Op.delay (5 * 1000)]) then
        ⟨true, true, T ++ [Op.delay (5 * 1000), Op.read [] 2]⟩
      else poll_loop h me fuel false (T ++ [Op.delay (5 * 1000), Op.read [] 2]) := by
  have ht : (ads101x_conversion_complete h me false (T ++ [Op.delay (5 * 1000)])).trace
      = T ++ [Op.delay (5 * 1000), Op.read [] 2] := by
    rw [conversion_complete_trace]; simp
  rw [poll_loop]
  simp only [conversion_complete_out, ht]
  cases hp : probe_reports_complete me.i2c_dev (T ++ [Op.delay (5 * 1000)]) <;> simp

/-- While the probes report not-complete the loop keeps polling: after `fuel` rounds it has
issued `fuel` delays and probes and has not been left. -/
theorem poll_loop_still_polling (h : ads101x_h) (me : ads101x_t) (fuel : Nat) :
    ∀ (n : Nat) (T : List Op), fuel ≤ n →
      (∀ k, k < n →
        probe_reports_complete me.i2c_dev (T ++ probes k ++ [Op.delay (5 * 1000)]) = false) →
      poll_loop h me fuel false T = ⟨false, false, T ++ probes fuel⟩ := by
  induction fuel with
  | zero => intro n T _ _; simp [poll_loop, probes]
  | succ f ih =>
    intro n T hle hn
    have h0 := hn 0 (by omega)
    simp only [probes, List.append_nil] at h0
    rw [poll_loop_succ, h0]
    simp only [Bool.false_eq_true, if_false]
    rw [ih (n - 1) (T ++ [Op.delay (5 * 1000), Op.read [] 2]) (by omega)]
    · simp [probes]
    · intro k hk
      have := hn (k + 1) (by omega)
      simpa [probes] using this

/-- When the first `n` probes report not-complete and the next one reports complete, the
loop is left after exactly `n + 1` rounds, given any bound of at least `n + 1` rounds. -/
theorem poll_loop_finishes (h : ads101x_h) (me : ads101x_t) (n : Nat) :
    ∀ (fuel : Nat) (T : List Op), n + 1 ≤ fuel →
      (∀ k, k < n →
        probe_reports_complete me.i2c_dev (T ++ probes k ++ [Op.delay (5 * 1000)]) = false) →
      probe_reports_complete me.i2c_dev (T ++ probes n ++ [Op.delay (5 * 1000)]) = true →
      poll_loop h me fuel false T = ⟨true, true, T ++ probes (n + 1)⟩ := by
  induction n with
  | zero =>
    intro fuel T hle _ hc
    obtain ⟨f, rfl⟩ : ∃ f, fuel = f + 1 := ⟨fuel - 1, by omega⟩
    simp only [probes, List.append_nil] at hc
    rw [poll_loop_succ, hc]
    simp [probes]
  | succ m ih =>
    intro fuel T hle hn hc
    obtain ⟨f, rfl⟩ : ∃ f, fuel = f + 1 := ⟨fuel - 1, by omega⟩
    have h0 := hn 0 (by omega)
    simp only [probes, List.append_nil] at h0
    rw [poll_loop_succ, h0]
    simp only [Bool.false_eq_true, if_false]
    rw [ih f (T ++ [Op.delay (5 * 1000), Op.read [] 2]) (by omega)]
    · simp [probes]
    · intro k hk
      have := hn (k + 1) (by omega)
      simpa [probes] using this
    · simpa [probes] using hc

theorem start_reading_ok (h : ads101x_h) (me : ads101x_t) (mux mode : Nat) (t : List Op)
    (hw1 : 0 ≤ answer me.i2c_dev t
      (reg_write h.ADS101X_REG_POINTER_CONFIG (start_reading_word h me mux)))
    (hw2 : 0 ≤ answer me.i2c_dev
      (t ++ [reg_write h.ADS101X_REG_POINTER_CONFIG (start_reading_word h me mux)])
      (reg_write h.ADS101X_REG_POINTER_HITHRESH 0x8000))
    (hw3 : 0 ≤ answer me.i2c_dev
      (t ++ [reg_write h.ADS101X_REG_POINTER_CONFIG (start_reading_word h me mux),
        reg_write h.ADS101X_REG_POINTER_HITHRESH 0x8000])
      (reg_write h.ADS101X_REG_POINTER_HITHRESH 0x0000)) :
    ads101x_start_reading h me mux mode t = ⟨ESP_OK, (), me, t ++ start_writes h me mux⟩ := by
  rw [start_reading_eq, if_neg (not_lt.mpr hw1), if_neg (not_lt.mpr hw2),
    if_neg (not_lt.mpr hw3)]
  rfl

theorem get_last_ret_ok (h : ads101x_h) (me : ads101x_t) (adc : Int) (T : List Op)
    (hr : 0 ≤ answer me.i2c_dev T (Op.read (read_pointer h.ADS101X_REG_POINTER_CONVERT) 2)) :
    (ads101x_get_last_conversion_results h me adc T).ret = ESP_OK := by
  simp only [ads101x_get_last_conversion_results, i2c_read_eq, not_lt.mpr hr, if_false]
  split <;> rfl

/-- C17: polling has no iteration cap.  For every `n` and every accepted channel, on a
transport that refuses none of the three writes, whose first `n` completion probes report
not-complete and whose next probe reports complete: while at most `n` rounds have run the
call is still polling, having issued one delay of 5 ms and one probe per round; given room
for `n + 1` rounds it issues, after the three writes, exactly `n + 1` probes, each preceded
by a 5 ms delay, then exactly one read of the conversion register, and when that read is
not refused it returns `ESP_OK` with the result that `ads101x_get_last_conversion_results`
decodes from it. -/
theorem read_single_ended_polls_until_complete (h : ads101x_h) (me : ads101x_t)
    (channel : Nat) (adc : Int) (n : Nat) (t : List Op)
    (hok : channel_ok h me channel)
    (hw1 : 0 ≤ answer me.i2c_dev t
      (reg_write h.ADS101X_REG_POINTER_CONFIG (start_reading_word h me channel)))
    (hw2 : 0 ≤ answer me.i2c_dev
      (t ++ [reg_write h.ADS101X_REG_POINTER_CONFIG (start_reading_word h me channel)])
      (reg_write h.ADS101X_REG_POINTER_HITHRESH 0x8000))
    (hw3 : 0 ≤ answer me.i2c_dev
      (t ++ [reg_write h.ADS101X_REG_POINTER_CONFIG (start_reading_word h me channel),
        reg_write h.ADS101X_REG_POINTER_HITHRESH 0x8000])
      (reg_write h.ADS101X_REG_POINTER_HITHRESH 0x0000))
    (hn : ∀ k, k < n → probe_reports_complete me.i2c_dev
      (t ++ start_writes h me channel ++ probes k ++ [Op.delay (5 * 1000)]) = false)
    (hc : probe_reports_complete me.i2c_dev
      (t ++ start_writes h me channel ++ probes n ++ [Op.delay (5 * 1000)]) = true) :
    (∀ fuel, fuel ≤ n →
      (ads101x_read_single_ended h me channel adc fuel t).ret = none ∧
      (ads101x_read_single_ended h me channel adc fuel t).trace =
        t ++ start_writes h me channel ++ probes fuel) ∧
    (∀ fuel, n + 1 ≤ fuel →
      (ads101x_read_single_ended h me channel adc fuel t).trace =
        t ++ start_writes h me channel ++ probes (n + 1) ++
          [Op.read (read_pointer h.ADS101X_REG_POINTER_CONVERT) 2] ∧
      (0 ≤ answer me.i2c_dev (t ++ start_writes h me channel ++ probes (n + 1))
          (Op.read (read_pointer h.ADS101X_REG_POINTER_CONVERT) 2) →
        (ads101x_read_single_ended h me channel adc fuel t).ret = some ESP_OK ∧
        (ads101x_read_single_ended h me channel adc fuel t).adc_result =
          (ads101x_get_last_conversion_results h me adc
            (t ++ start_writes h me channel ++ probes (n + 1))).out)) := by
  have hs := start_reading_ok h me channel h.ADS101X_MODE_ONESHOT t hw1 hw2 hw3
  refine ⟨fun fuel hle => ?_, fun fuel hle => ?_⟩
  · have hp := poll_loop_still_polling h me fuel n (t ++ start_writes h me channel) hle hn
    rw [read_single_ended_accepted h me channel adc fuel t hok, hs]
    simp only [ne_eq, not_true_eq_false, if_false, hp, Bool.not_false, if_true, and_self]
  · have hp := poll_loop_finishes h me n fuel (t ++ start_writes h me channel) hle hn hc
    rw [read_single_ended_accepted h me channel adc fuel t hok, hs]
    simp only [ne_eq, not_true_eq_false, if_false, hp, Bool.not_true, Bool.false_eq_true]
    refine ⟨?_, fun hr => ?_⟩
    · split <;> exact get_last_trace h me adc _
    · rw [get_last_ret_ok h me adc _ hr]
      simp

/-- C17, concrete instance: channel 0 of the sample instance on a transport whose first two
probes read 0x0000, whose third probe reads 0x8000 and whose conversion register reads
0x1230.  With room for five rounds the call makes three probes and one result read and
returns `ESP_OK` with 0x123; with room for two rounds it is still polling. -/
theorem read_single_ended_polls_until_complete_witness :
    (ads101x_read_single_ended datasheet_h (sample_me (ready_after_dev 2 0x12 0x30) 4) 0 0 2
      []).ret = none ∧
    (ads101x_read_single_ended datasheet_h (sample_me (ready_after_dev 2 0x12 0x30) 4) 0 0 5
      []).trace =
        [Op.write [1] [0x82, 0x80], Op.write [3] [0x80, 0x00], Op.write [3] [0x00, 0x00],
          Op.delay 5000, Op.read [] 2, Op.delay 5000, Op.read [] 2, Op.delay 5000,
          Op.read [] 2, Op.read [] 2] ∧
    (ads101x_read_single_ended datasheet_h (sample_me (ready_after_dev 2 0x12 0x30) 4) 0 0 5
      []).ret = some ESP_OK ∧
    (ads101x_read_single_ended datasheet_h (sample_me (ready_after_dev 2 0x12 0x30) 4) 0 0 5
      []).adc_result = 0x123 :=
  have w := read_single_ended_polls_until_complete datasheet_h
    (sample_me (ready_after_dev 2 0x12 0x30) 4) 0 0 2 [] (by decide) (by decide) (by decide)
    (by decide) (by decide) (by decide)
  ⟨((w.1 2 (by decide)).1), (w.2 5 (by decide)).1.trans (by decide),
    ((w.2 5 (by decide)).2 (by decide)).1,
    ((w.2 5 (by decide)).2 (by decide)).2.trans (by decide)⟩

/-! ## Differential reads -/

theorem read_single_ended_eq_oneshot (h : ads101x_h) (me : ads101x_t) (channel : Nat)
    (adc : Int) (fuel : Nat) (t : List Op) (hok : channel_ok h me channel) :
    ads101x_read_single_ended h me channel adc fuel t = oneshot_read h me channel adc fuel t := by
  have hrej : (if me.model = h.ADS101X_MODEL_5 then decide (channel > 3)
      else decide (channel > 1)) = false := by
    unfold channel_ok at hok
    rcases hok with ⟨hm, hc⟩ | ⟨hm, hc⟩
    · simp only [hm, if_true, decide_eq_false_iff_not]; omega
    · simp only [hm, if_false, decide_eq_false_iff_not]; omega
  simp only [ads101x_read_single_ended, hrej, Bool.false_eq_true, if_false, oneshot_read]

/-- A read without channel check starts with the write of the config register, whatever
the instance. -/
theorem oneshot_read_first_op (h : ads101x_h) (me : ads101x_t) (mux : Nat)
    (adc : Int) (fuel : Nat) (t : List Op) :
    ∃ rest, (oneshot_read h me mux adc fuel t).trace =
      t ++ reg_write h.ADS101X_REG_POINTER_CONFIG (start_reading_word h me mux) :: rest := by
  obtain ⟨r1, h1⟩ := start_reading_trace h me mux h.ADS101X_MODE_ONESHOT t
  obtain ⟨r2, h2⟩ := poll_loop_trace h me fuel false
    (ads101x_start_reading h me mux h.ADS101X_MODE_ONESHOT t).trace
  simp only [oneshot_read]
  split
  · exact ⟨r1, h1⟩
  · split
    · exact ⟨r1 ++ r2, by rw [h2, h1]; simp⟩
    · split
      · exact ⟨r1 ++ r2 ++ [Op.read (read_pointer h.ADS101X_REG_POINTER_CONVERT) 2], by
          rw [get_last_trace, h2, h1]; simp⟩
      · exact ⟨r1 ++ r2 ++ [Op.read (read_pointer h.ADS101X_REG_POINTER_CONVERT) 2], by
          rw [get_last_trace, h2, h1]; simp⟩

/-- C18: each differential entry point is the single-ended read after its channel check with
the mux selector replaced by its own pattern.  With `oneshot_read` the read without check
(start in oneshot mode, poll, fetch): the single-ended read of an accepted channel is
`oneshot_read` of that channel, and the four differential reads are `oneshot_read` of
`DIFF_0_1`, `DIFF_0_3`, `DIFF_1_3` and `DIFF_2_3`, for every instance, every transport and
every length of the polling phase: same trace, same return code, same stored result.  No
differential read rejects: for every instance its first operation is the config write. -/
theorem differential_reads_refine_single_ended (h : ads101x_h) (me : ads101x_t) (adc : Int)
    (fuel : Nat) (t : List Op) :
    (∀ channel, channel_ok h me channel →
      ads101x_read_single_ended h me channel adc fuel t
        = oneshot_read h me channel adc fuel t) ∧
    ads101x_read_differential_0_1 h me adc fuel t
      = oneshot_read h me h.ADS101X_REG_CONFIG_MUX_DIFF_0_1 adc fuel t ∧
    ads101x_read_differential_0_3 h me adc fuel t
      = oneshot_read h me h.ADS101X_REG_CONFIG_MUX_DIFF_0_3 adc fuel t ∧
    ads101x_read_differential_1_3 h me adc fuel t
      = oneshot_read h me h.ADS101X_REG_CONFIG_MUX_DIFF_1_3 adc fuel t ∧
    ads101x_read_differential_2_3 h me adc fuel t
      = oneshot_read h me h.ADS101X_REG_CONFIG_MUX_DIFF_2_3 adc fuel t ∧
    (∃ rest, (ads101x_read_differential_0_1 h me adc fuel t).trace =
      t ++ reg_write h.ADS101X_REG_POINTER_CONFIG
        (start_reading_word h me h.ADS101X_REG_CONFIG_MUX_DIFF_0_1) :: rest) ∧
    (∃ rest, (ads101x_read_differential_0_3 h me adc fuel t).trace =
      t ++ reg_write h.ADS101X_REG_POINTER_CONFIG
        (start_reading_word h me h.ADS101X_REG_CONFIG_MUX_DIFF_0_3) :: rest) ∧
    (∃ rest, (ads101x_read_differential_1_3 h me adc fuel t).trace =
      t ++ reg_write h.ADS101X_REG_POINTER_CONFIG
        (start_reading_word h me h.ADS101X_REG_CONFIG_MUX_DIFF_1_3) :: rest) ∧
    (∃ rest, (ads101x_read_differential_2_3 h me adc fuel t).trace =
      t ++ reg_write h.ADS101X_REG_POINTER_CONFIG
        (start_reading_word h me h.ADS101X_REG_CONFIG_MUX_DIFF_2_3) :: rest) := by
  refine ⟨fun channel hok => read_single_ended_eq_oneshot h me channel adc fuel t hok,
    read_differential_0_1_eq h me adc fuel t, read_differential_0_3_eq h me adc fuel t,
    read_differential_1_3_eq h me adc fuel t, read_differential_2_3_eq h me adc fuel t,
    ?_, ?_, ?_, ?_⟩
  · rw [read_differential_0_1_eq]; exact oneshot_read_first_op h me _ adc fuel t
  · rw [read_differential_0_3_eq]; exact oneshot_read_first_op h me _ adc fuel t
  · rw [read_differential_1_3_eq]; exact oneshot_read_first_op h me _ adc fuel t
  · rw [read_differential_2_3_eq]; exact oneshot_read_first_op h me _ adc fuel t

/-- C18, concrete instance: with the datasheet header the pattern `DIFF_0_1` is 0, so on
the four-channel sample instance the differential read 0-1 and the single-ended read of
channel 0 are the same call. -/
theorem differential_reads_refine_single_ended_witness :
    ads101x_read_single_ended datasheet_h (sample_me (ready_after_dev 1 0x12 0x30) 4) 0 0 5 []
      = ads101x_read_differential_0_1 datasheet_h (sample_me (ready_after_dev 1 0x12 0x30) 4)
        0 5 [] :=
  ((differential_reads_refine_single_ended datasheet_h
      (sample_me (ready_after_dev 1 0x12 0x30) 4) 0 5 []).1 0 (by decide)).trans
    (differential_reads_refine_single_ended datasheet_h
      (sample_me (ready_after_dev 1 0x12 0x30) 4) 0 5 []).2.1.symm

/-! ## The completion probe as it is -/

/-- The first transfer of `ads101x_start_comparator_single_ended` is the write of the
high-threshold register. -/
theorem start_comparator_trace (h : ads101x_h) (me : ads101x_t) (channel : Nat)
    (threshold : Int) (t : List Op) :
    ∃ rest, (ads101x_start_comparator_single_ended h me channel threshold t).trace =
      t ++ Op.write [h.ADS101X_REG_POINTER_HITHRESH % 256]
        [threshold_word me.bit_shift threshold / 256,
          threshold_word me.bit_shift threshold % 256] :: rest := by
  have e1 : threshold_word me.bit_shift threshold % 65536
      = threshold_word me.bit_shift threshold :=
    Nat.mod_eq_of_lt (threshold_word_lt _ _)
  have hw : reg_write h.ADS101X_REG_POINTER_HITHRESH (threshold_word me.bit_shift threshold)
      = Op.write [h.ADS101X_REG_POINTER_HITHRESH % 256]
        [threshold_word me.bit_shift threshold / 256,
          threshold_word me.bit_shift threshold % 256] := by
    simp only [reg_write, e1]
  rw [start_comparator_eq, hw]
  split
  · exact ⟨[], rfl⟩
  · split
    · exact ⟨_, rfl⟩
    · exact ⟨_, rfl⟩

/-- Decoding the encoded threshold: the arithmetic of C20. -/
theorem decode_threshold_word (bit_shift : Nat) (threshold : Int)
    (hb : (bit_shift = 4 ∧ -2048 ≤ threshold ∧ threshold ≤ 2047) ∨
      (bit_shift = 0 ∧ -32768 ≤ threshold ∧ threshold ≤ 32767)) :
    (if bit_shift = 0 then
      toInt16 ((threshold_word bit_shift threshold >>> bit_shift) % 65536)
    else toInt16
      (if (threshold_word bit_shift threshold >>> bit_shift) % 65536 > 0x07FF then
        (((threshold_word bit_shift threshold >>> bit_shift) % 65536) ||| 0xF000) % 65536
      else (threshold_word bit_shift threshold >>> bit_shift) % 65536)) = threshold := by
  rcases hb with ⟨hs, hlo, hhi⟩ | ⟨hs, hlo, hhi⟩
  · subst hs
    have hnn : 0 ≤ (threshold * 2 ^ 4) % 65536 := Int.emod_nonneg _ (by norm_num)
    obtain ⟨w, hw⟩ : ∃ w : Nat, threshold_word 4 threshold = w := ⟨_, rfl⟩
    have hwi : (w : Int) = (threshold * 2 ^ 4) % 65536 := by
      rw [← hw]; unfold threshold_word; exact Int.toNat_of_nonneg hnn
    have hwi2 : (w : Int) = (threshold * 16) % 65536 := by rw [hwi]; norm_num
    have e4 : w >>> 4 = w / 16 := by rw [Nat.shiftRight_eq_div_pow]
    have hlt : w / 16 < 4096 := by omega
    have hm : w / 16 % 65536 = w / 16 := by omega
    rw [hw]
    simp only [e4, hm, OfNat.ofNat_ne_zero, if_false, lor_sign_bits _ hlt, toInt16]
    split <;> split <;> omega
  · subst hs
    have hnn : 0 ≤ (threshold * 2 ^ 0) % 65536 := Int.emod_nonneg _ (by norm_num)
    obtain ⟨w, hw⟩ : ∃ w : Nat, threshold_word 0 threshold = w := ⟨_, rfl⟩
    have hwi : (w : Int) = (threshold * 2 ^ 0) % 65536 := by
      rw [← hw]; unfold threshold_word; exact Int.toNat_of_nonneg hnn
    have hwi2 : (w : Int) = threshold % 65536 := by rw [hwi]; norm_num
    rw [hw]
    simp only [if_true, Nat.shiftRight_zero, toInt16]
    split <;> omega

/-- C20: threshold encoding and result decoding are inverse.  For `bit_shift = 4` and every
threshold between -2048 and 2047, and for `bit_shift = 0` and every signed 16-bit
threshold: the first transfer of `ads101x_start_comparator_single_ended` writes two bytes
to the high-threshold register, and whenever a read of the conversion register that is not
refused hands these two bytes to `ads101x_get_last_conversion_results` on an instance with
the same `bit_shift`, the stored result is the threshold. -/
theorem threshold_round_trip (h : ads101x_h) (me : ads101x_t) (channel : Nat)
    (threshold : Int) (t : List Op)
    (hb : (me.bit_shift = 4 ∧ -2048 ≤ threshold ∧ threshold ≤ 2047) ∨
      (me.bit_shift = 0 ∧ -32768 ≤ threshold ∧ threshold ≤ 32767)) :
    ∃ b0 b1 : Nat,
      (∃ rest, (ads101x_start_comparator_single_ended h me channel threshold t).trace =
        t ++ Op.write [h.ADS101X_REG_POINTER_HITHRESH % 256] [b0, b1] :: rest) ∧
      ∀ (h2 : ads101x_h) (me2 : ads101x_t) (adc : Int) (t2 : List Op) (s : Int),
        me2.bit_shift = me.bit_shift →
        me2.i2c_dev.read t2 (read_pointer h2.ADS101X_REG_POINTER_CONVERT) 2 = (s, b0, b1) →
        0 ≤ toInt8 s →
        (ads101x_get_last_conversion_results h2 me2 adc t2).ret = ESP_OK ∧
        (ads101x_get_last_conversion_results h2 me2 adc t2).out = threshold := by
  refine ⟨threshold_word me.bit_shift threshold / 256,
    threshold_word me.bit_shift threshold % 256,
    start_comparator_trace h me channel threshold t, ?_⟩
  intro h2 me2 adc t2 s hbs hread hs
  rw [get_last_of_read h2 me2 adc t2 s _ _ hs hread]
  refine ⟨rfl, ?_⟩
  have hlt := threshold_word_lt me.bit_shift threshold
  have hv : 256 * (threshold_word me.bit_shift threshold / 256 % 256)
      + threshold_word me.bit_shift threshold % 256 % 256
      = threshold_word me.bit_shift threshold := by omega
  simp only [hv, hbs]
  exact decode_threshold_word me.bit_shift threshold hb

/-- C20, concrete instance: the threshold -5 with `bit_shift = 4` is written as 0xFF, 0xB0,
and these bytes read back from the conversion register decode to -5. -/
theorem threshold_round_trip_witness :
    ∃ b0 b1 : Nat,
      (∃ rest, (ads101x_start_comparator_single_ended datasheet_h
          (sample_me (script_dev [] []) 4) 0 (-5) []).trace =
        [] ++ Op.write [datasheet_h.ADS101X_REG_POINTER_HITHRESH % 256] [b0, b1] :: rest) ∧
      ∀ (h2 : ads101x_h) (me2 : ads101x_t) (adc : Int) (t2 : List Op) (s : Int),
        me2.bit_shift = (sample_me (script_dev [] []) 4).bit_shift →
        me2.i2c_dev.read t2 (read_pointer h2.ADS101X_REG_POINTER_CONVERT) 2 = (s, b0, b1) →
        0 ≤ toInt8 s →
        (ads101x_get_last_conversion_results h2 me2 adc t2).ret = ESP_OK ∧
        (ads101x_get_last_conversion_results h2 me2 adc t2).out = -5 :=
  threshold_round_trip datasheet_h (sample_me (script_dev [] []) 4) 0 (-5) []
    (Or.inl ⟨rfl, by decide, by decide⟩)

/-! ## One error code -/

theorem get_last_refused (h : ads101x_h) (me : ads101x_t) (adc : Int) (T : List Op)
    (hr : answer me.i2c_dev T (Op.read (read_pointer h.ADS101X_REG_POINTER_CONVERT) 2) < 0) :
    ads101x_get_last_conversion_results h me adc T =
      ⟨ESP_FAIL, adc, me, T ++ [Op.read (read_pointer h.ADS101X_REG_POINTER_CONVERT) 2]⟩ := by
  simp only [ads101x_get_last_conversion_results, i2c_read_eq, hr, if_true]

/-- C5, amended: `ads101x_read_single_ended` has one error code.  It returns `ESP_FAIL` for
an out-of-range channel, it returns `ESP_FAIL` when the write of the config register is
refused, and whenever it returns, the code is `ESP_OK` or `ESP_FAIL`.  The rejected call is
told apart only by its trace, which is left as it was.  It also returns `ESP_FAIL` when the
first or the second write of the high-threshold register is refused, and when the read of
the conversion register is refused once the polling loop has been left (stated for the loop
as such, and for a transport whose first `n` probes report not-complete and whose next one
reports complete); in that last case the output parameter keeps its value. -/
theorem read_single_ended_one_error_code (h : ads101x_h) (me : ads101x_t) (channel : Nat)
    (adc : Int) (fuel : Nat) (t : List Op) :
    (¬ channel_ok h me channel →
      (ads101x_read_single_ended h me channel adc fuel t).ret = some ESP_FAIL ∧
      (ads101x_read_single_ended h me channel adc fuel t).trace = t) ∧
    (channel_ok h me channel →
      answer me.i2c_dev t
        (reg_write h.ADS101X_REG_POINTER_CONFIG (start_reading_word h me channel)) < 0 →
      (ads101x_read_single_ended h me channel adc fuel t).ret = some ESP_FAIL ∧
      (ads101x_read_single_ended h me channel adc fuel t).trace =
        t ++ [reg_write h.ADS101X_REG_POINTER_CONFIG (start_reading_word h me channel)]) ∧
    (∀ c, (ads101x_read_single_ended h me channel adc fuel t).ret = some c →
      c = ESP_OK ∨ c = ESP_FAIL) ∧
    (channel_ok h me channel →
      0 ≤ answer me.i2c_dev t
        (reg_write h.ADS101X_REG_POINTER_CONFIG (start_reading_word h me channel)) →
      answer me.i2c_dev
        (t ++ [reg_write h.ADS101X_REG_POINTER_CONFIG (start_reading_word h me channel)])
        (reg_write h.ADS101X_REG_POINTER_HITHRESH 0x8000) < 0 →
      (ads101x_read_single_ended h me channel adc fuel t).ret = some ESP_FAIL ∧
      (ads101x_read_single_ended h me channel adc fuel t).trace =
        t ++ [reg_write h.ADS101X_REG_POINTER_CONFIG (start_reading_word h me channel),
          reg_write h.ADS101X_REG_POINTER_HITHRESH 0x8000]) ∧
    (channel_ok h me channel →
      0 ≤ answer me.i2c_dev t
        (reg_write h.ADS101X_REG_POINTER_CONFIG (start_reading_word h me channel)) →
      0 ≤ answer me.i2c_dev
        (t ++ [reg_write h.ADS101X_REG_POINTER_CONFIG (start_reading_word h me channel)])
        (reg_write h.ADS101X_REG_POINTER_HITHRESH 0x8000) →
      answer me.i2c_dev
        (t ++ [reg_write h.ADS101X_REG_POINTER_CONFIG (start_reading_word h me channel),
          reg_write h.ADS101X_REG_POINTER_HITHRESH 0x8000])
        (reg_write h.ADS101X_REG_POINTER_HITHRESH 0x0000) < 0 →
      (ads101x_read_single_ended h me channel adc fuel t).ret = some ESP_FAIL ∧
      (ads101x_read_single_ended h me channel adc fuel t).trace =
        t ++ start_writes h me channel) ∧
    (channel_ok h me channel →
      0 ≤ answer me.i2c_dev t
        (reg_write h.ADS101X_REG_POINTER_CONFIG (start_reading_word h me channel)) →
      0 ≤ answer me.i2c_dev
        (t ++ [reg_write h.ADS101X_REG_POINTER_CONFIG (start_reading_word h me channel)])
        (reg_write h.ADS101X_REG_POINTER_HITHRESH 0x8000) →
      0 ≤ answer me.i2c_dev
        (t ++ [reg_write h.ADS101X_REG_POINTER_CONFIG (start_reading_word h me channel),
          reg_write h.ADS101X_REG_POINTER_HITHRESH 0x8000])
        (reg_write h.ADS101X_REG_POINTER_HITHRESH 0x0000) →
      (poll_loop h me fuel false (t ++ start_writes h me channel)).finished = true →
      answer me.i2c_dev (poll_loop h me fuel false (t ++ start_writes h me channel)).trace
        (Op.read (read_pointer h.ADS101X_REG_POINTER_CONVERT) 2) < 0 →
      (ads101x_read_single_ended h me channel adc fuel t).ret = some ESP_FAIL ∧
      (ads101x_read_single_ended h me channel adc fuel t).adc_result = adc ∧
      (ads101x_read_single_ended h me channel adc fuel t).trace =
        (poll_loop h me fuel false (t ++ start_writes h me channel)).trace ++
          [Op.read (read_pointer h.ADS101X_REG_POINTER_CONVERT) 2]) ∧
    (∀ n, channel_ok h me channel →
      0 ≤ answer me.i2c_dev t
        (reg_write h.ADS101X_REG_POINTER_CONFIG (start_reading_word h me channel)) →
      0 ≤ answer me.i2c_dev
        (t ++ [reg_write h.ADS101X_REG_POINTER_CONFIG (start_reading_word h me channel)])
        (reg_write h.ADS101X_REG_POINTER_HITHRESH 0x8000) →
      0 ≤ answer me.i2c_dev
        (t ++ [reg_write h.ADS101X_REG_POINTER_CONFIG (start_reading_word h me channel),
          reg_write h.ADS101X_REG_POINTER_HITHRESH 0x8000])
        (reg_write h.ADS101X_REG_POINTER_HITHRESH 0x0000) →
      (∀ k, k < n → probe_reports_complete me.i2c_dev
        (t ++ start_writes h me channel ++ probes k ++ [Op.delay (5 * 1000)]) = false) →
      probe_reports_complete me.i2c_dev
        (t ++ start_writes h me channel ++ probes n ++ [Op.delay (5 * 1000)]) = true →
      n + 1 ≤ fuel →
      answer me.i2c_dev (t ++ start_writes h me channel ++ probes (n + 1))
        (Op.read (read_pointer h.ADS101X_REG_POINTER_CONVERT) 2) < 0 →
      (ads101x_read_single_ended h me channel adc fuel t).ret = some ESP_FAIL ∧
      (ads101x_read_single_ended h me channel adc fuel t).adc_result = adc ∧
      (ads101x_read_single_ended h me channel adc fuel t).trace =
        t ++ start_writes h me channel ++ probes (n + 1) ++
          [Op.read (read_pointer h.ADS101X_REG_POINTER_CONVERT) 2]) := by
  have hne : ESP_FAIL ≠ ESP_OK := by decide
  have hleft : ∀ (hok : channel_ok h me channel)
      (hw1 : 0 ≤ answer me.i2c_dev t
        (reg_write h.ADS101X_REG_POINTER_CONFIG (start_reading_word h me channel)))
      (hw2 : 0 ≤ answer me.i2c_dev
        (t ++ [reg_write h.ADS101X_REG_POINTER_CONFIG (start_reading_word h me channel)])
        (reg_write h.ADS101X_REG_POINTER_HITHRESH 0x8000))
      (hw3 : 0 ≤ answer me.i2c_dev
        (t ++ [reg_write h.ADS101X_REG_POINTER_CONFIG (start_reading_word h me channel),
          reg_write h.ADS101X_REG_POINTER_HITHRESH 0x8000])
        (reg_write h.ADS101X_REG_POINTER_HITHRESH 0x0000))
      (hfin : (poll_loop h me fuel false (t ++ start_writes h me channel)).finished = true)
      (hr : answer me.i2c_dev (poll_loop h me fuel false (t ++ start_writes h me channel)).trace
        (Op.read (read_pointer h.ADS101X_REG_POINTER_CONVERT) 2) < 0),
      (ads101x_read_single_ended h me channel adc fuel t).ret = some ESP_FAIL ∧
      (ads101x_read_single_ended h me channel adc fuel t).adc_result = adc ∧
      (ads101x_read_single_ended h me channel adc fuel t).trace =
        (poll_loop h me fuel false (t ++ start_writes h me channel)).trace ++
          [Op.read (read_pointer h.ADS101X_REG_POINTER_CONVERT) 2] := by
    intro hok hw1 hw2 hw3 hfin hr
    have hs := start_reading_ok h me channel h.ADS101X_MODE_ONESHOT t hw1 hw2 hw3
    rw [read_single_ended_accepted h me channel adc fuel t hok, hs]
    simp only [ne_eq, not_true_eq_false, if_false, hfin, Bool.not_true, Bool.false_eq_true,
      get_last_refused h me adc _ hr, hne, not_false_eq_true, if_true, and_self]
  refine ⟨fun hno => ?_, fun hok hw => ?_, fun c hc => ?_, fun hok hw1 hw2 => ?_,
    fun hok hw1 hw2 hw3 => ?_, hleft, fun n hok hw1 hw2 hw3 hn hc hle hr => ?_⟩
  · rw [read_single_ended_rejected h me channel adc fuel t hno]
    exact ⟨rfl, rfl⟩
  · have hs : ads101x_start_reading h me channel h.ADS101X_MODE_ONESHOT t =
        ⟨ESP_FAIL, (), me,
          t ++ [reg_write h.ADS101X_REG_POINTER_CONFIG (start_reading_word h me channel)]⟩ := by
      rw [start_reading_eq, if_pos hw]
    rw [read_single_ended_accepted h me channel adc fuel t hok, hs]
    simp only [hne, ne_eq, not_false_eq_true, if_true]
    exact ⟨trivial, trivial⟩
  · by_cases hok : channel_ok h me channel
    · rw [read_single_ended_accepted h me channel adc fuel t hok] at hc
      split_ifs at hc <;> simp_all
    · rw [read_single_ended_rejected h me channel adc fuel t hok] at hc
      simp_all
  · have hs : ads101x_start_reading h me channel h.ADS101X_MODE_ONESHOT t =
        ⟨ESP_FAIL, (), me,
          t ++ [reg_write h.ADS101X_REG_POINTER_CONFIG (start_reading_word h me channel),
            reg_write h.ADS101X_REG_POINTER_HITHRESH 0x8000]⟩ := by
      rw [start_reading_eq, if_neg (not_lt.mpr hw1), if_pos hw2]
    rw [read_single_ended_accepted h me channel adc fuel t hok, hs]
    simp only [hne, ne_eq, not_false_eq_true, if_true]
    exact ⟨trivial, trivial⟩
  · have hs : ads101x_start_reading h me channel h.ADS101X_MODE_ONESHOT t =
        ⟨ESP_FAIL, (), me, t ++ start_writes h me channel⟩ := by
      rw [start_reading_eq, if_neg (not_lt.mpr hw1), if_neg (not_lt.mpr hw2), if_pos hw3]
      rfl
    rw [read_single_ended_accepted h me channel adc fuel t hok, hs]
    simp only [hne, ne_eq, not_false_eq_true, if_true]
    exact ⟨trivial, trivial⟩
  · have hp := poll_loop_finishes h me n fuel (t ++ start_writes h me channel) hle hn hc
    have hfin : (poll_loop h me fuel false (t ++ start_writes h me channel)).finished = true := by
      rw [hp]
    have hr2 : answer me.i2c_dev
        (poll_loop h me fuel false (t ++ start_writes h me channel)).trace
        (Op.read (read_pointer h.ADS101X_REG_POINTER_CONVERT) 2) < 0 := by
      rw [hp]; exact hr
    have key := hleft hok hw1 hw2 hw3 hfin hr2
    rw [hp] at key
    exact key

/-- C5, amended, concrete instance: channel 4, out of range on the four-channel sample, and
channel 0 with a refused config write; also channel 0 with a refused second write of the
high-threshold register, and channel 0 with a refused read of the conversion register after
a probe that reports complete. -/
theorem read_single_ended_one_error_code_witness :
    (ads101x_read_single_ended datasheet_h (sample_me (script_dev [-1] []) 4) 4 0 3 []).ret
      = some ESP_FAIL ∧
    (ads101x_read_single_ended datasheet_h (sample_me (script_dev [-1] []) 4) 0 0 3 []).ret
      = some ESP_FAIL ∧
    (ads101x_read_single_ended datasheet_h (sample_me (script_dev [0, 0, -1] []) 4) 0 0 3
      []).ret = some ESP_FAIL ∧
    (ads101x_read_single_ended datasheet_h
      (sample_me (script_dev [] [(0, 0x80, 0), (-1, 0, 0)]) 4) 0 0 3 []).ret = some ESP_FAIL :=
  ⟨((read_single_ended_one_error_code datasheet_h (sample_me (script_dev [-1] []) 4) 4 0 3
      []).1 (by decide)).1,
    ((read_single_ended_one_error_code datasheet_h (sample_me (script_dev [-1] []) 4) 0 0 3
      []).2.1 (by decide) (by decide)).1,
    ((read_single_ended_one_error_code datasheet_h (sample_me (script_dev [0, 0, -1] []) 4) 0 0
      3 []).2.2.2.2.1 (by decide) (by decide) (by decide) (by decide)).1,
    ((read_single_ended_one_error_code datasheet_h
      (sample_me (script_dev [] [(0, 0x80, 0), (-1, 0, 0)]) 4) 0 0 3 []).2.2.2.2.2.2 0
      (by decide) (by decide) (by decide) (by decide) (by decide) (by decide) (by decide)
      (by decide)).1⟩

end Ads101x
